import Mathlib

/-!
Verification of the MaraLyrics request-routing and data-access layer.

The JavaScript worker (src/worker/db.js, src/worker/routes.js and the full
routes module, src/worker/worker.js) is shallowly embedded: the D1 `songs`
table becomes a `List Song`, each gateway function becomes a pure Lean
function returning the new table together with the value the JS promise
resolves to, and each route handler becomes a function from the parsed
request to a response value paired with the new state.  JS numbers are
modelled as `Nat`/`Int`; `NaN` (from `parseInt` on non-numeric text) is
modelled as `none : Option Int`.  A request body that is not valid JSON is
modelled as `none`: handlers that wrap `request.json()` in try/catch consume
the `Option`, handlers that do not are `Except`-valued and propagate the
exception to the dispatcher's top-level boundary.
-/

namespace MaraLyrics

/-! ### JavaScript string primitives -/

/-- Characters matched by the JS regex class `\s` (restricted to ASCII, which
is all the spec's printable-ASCII scope needs). -/
def isJsSpace (c : Char) : Bool :=
  c = ' ' || c = '\t' || c = '\n' || c = '\r' || c = '\x0b' || c = '\x0c'

/-- JS `String.prototype.trim` on a character list. -/
def jsTrimL (l : List Char) : List Char :=
  ((l.dropWhile isJsSpace).reverse.dropWhile isJsSpace).reverse

/-- JS `s.trim()`. -/
def jsTrim (s : String) : String := String.mk (jsTrimL s.data)

/-- JS `String.prototype.toLowerCase` on one ASCII character. -/
def toLowerJs (c : Char) : Char :=
  if 65 ≤ c.toNat ∧ c.toNat ≤ 90 then Char.ofNat (c.toNat + 32) else c

/-- The JS regex class `\w` (ASCII word character). -/
def isJsWordChar (c : Char) : Bool :=
  (97 ≤ c.toNat && c.toNat ≤ 122) || (65 ≤ c.toNat && c.toNat ≤ 90) ||
    (48 ≤ c.toNat && c.toNat ≤ 57) || c = '_'

/-- Characters kept by `generateSlug`'s first replace, `[^\w\s-]` deleted. -/
def keepSlugChar (c : Char) : Bool := isJsWordChar c || isJsSpace c || c = '-'

/-- The class `[\s_]` of `generateSlug`'s second replace. -/
def isSpaceU (c : Char) : Bool := isJsSpace c || c = '_'

/-- Replace `/[\s_]+/g` by a single hyphen: every maximal run of
whitespace/underscore characters becomes one `'-'`. -/
def collapseSpaceU : List Char → List Char
  | [] => []
  | c :: rest =>
    if isSpaceU c then
      match rest with
      | [] => ['-']
      | c2 :: rest2 =>
        if isSpaceU c2 then collapseSpaceU (c2 :: rest2)
        else '-' :: collapseSpaceU (c2 :: rest2)
    else c :: collapseSpaceU rest

/-- Replace the hyphen-run regex of `generateSlug` by a single hyphen: every
maximal run of hyphens becomes one `'-'`. -/
def collapseHyphens : List Char → List Char
  | [] => []
  | c :: rest =>
    if c = '-' then
      match rest with
      | [] => ['-']
      | c2 :: rest2 =>
        if c2 = '-' then collapseHyphens (c2 :: rest2)
        else '-' :: collapseHyphens (c2 :: rest2)
    else c :: collapseHyphens rest

/-- The `^-` half of `replace(/^-|-$/g, '')`: drop one leading hyphen. -/
def stripLeadHyphen : List Char → List Char
  | [] => []
  | c :: rest => if c = '-' then rest else c :: rest

/-- The `-$` half of `replace(/^-|-$/g, '')`: drop one trailing hyphen. -/
def stripTrailHyphen : List Char → List Char
  | [] => []
  | [c] => if c = '-' then [] else [c]
  | c :: rest => c :: stripTrailHyphen rest

/-- Body of `generateSlug` from routes.js on character lists:
lowercase, trim, delete `[^\w\s-]`, collapse `[\s_]+` and `-+` to single
hyphens, strip one leading and one trailing hyphen. -/
def genSlugList (l : List Char) : List Char :=
  stripTrailHyphen (stripLeadHyphen (collapseHyphens (collapseSpaceU
    ((jsTrimL (l.map toLowerJs)).filter keepSlugChar))))

/-- `generateSlug` (routes.js): the slug derived from a display title/name. -/
def generateSlug (text : String) : String := String.mk (genSlugList text.data)

/-- `sanitizeQuery` (routes.js): trim, strip the characters in the class of
the regex, truncate to 100 characters; `q || ''` maps an absent value to
the empty string. -/
def sanitizeQuery (q : Option String) : String :=
  String.mk (((jsTrimL (q.getD "").data).filter
    (fun c => !(c = '<' || c = '>' || c = '"' || c = '\'' || c = ';'))).take 100)

/-- JS `parseInt(s, 10)`: skip leading whitespace, optional sign, read the
leading digit run, ignore the rest; `none` models `NaN`. -/
def parseDigitRun (l : List Char) : Option Nat :=
  let ds := l.takeWhile (fun c => 48 ≤ c.toNat && c.toNat ≤ 57)
  if ds.isEmpty then none
  else some (ds.foldl (fun acc c => acc * 10 + (c.toNat - 48)) 0)

/-- JS `parseInt(s, 10)` returning `none` for `NaN`. -/
def parseIntJS (s : String) : Option Int :=
  match s.data.dropWhile isJsSpace with
  | '-' :: rest => (parseDigitRun rest).map (fun n => -(n : Int))
  | '+' :: rest => (parseDigitRun rest).map (fun n => (n : Int))
  | cs => (parseDigitRun cs).map (fun n => (n : Int))

/-- JS `raw || dflt` for a query-string value (`none` = parameter absent;
the empty string is falsy). -/
def jsQueryOr (raw : Option String) (dflt : String) : String :=
  match raw with
  | none => dflt
  | some s => if s = "" then dflt else s

/-- JS `Math.max(a, x)` where `x` may be `NaN` (`none`), which propagates. -/
def jsMaxNan (a : Int) (x : Option Int) : Option Int := x.map (fun v => max a v)

/-- JS `Math.min(a, x)` where `x` may be `NaN` (`none`), which propagates. -/
def jsMinNan (a : Int) (x : Option Int) : Option Int := x.map (fun v => min a v)

/-! ### Data model: the `songs` table -/

/-- Row of the `songs` table (schema.sql): `slug` carries a UNIQUE
constraint, `views` defaults to 0, `created_at` to the insertion time. -/
structure Song where
  id : Nat
  title : String
  slug : String
  artist_id : Option Nat
  composer_id : Option Nat
  copyright_owner_id : Option Nat
  category : Option String
  lyrics : String
  views : Nat
  created_at : Nat
deriving DecidableEq

/-- The WHERE clause `s.category = ?` added by `getSongs` when a category
filter is present (`none` models the JS `null`, no clause). -/
def matchesCategory (category : Option String) (s : Song) : Bool :=
  match category with
  | none => true
  | some c => s.category = some c

/-- Insert one row into a list sorted by `created_at` descending. -/
def insertCreatedDesc (x : Song) : List Song → List Song
  | [] => [x]
  | y :: ys =>
    if x.created_at ≤ y.created_at then y :: insertCreatedDesc x ys
    else x :: y :: ys

/-- `ORDER BY s.created_at DESC` of the `getSongs` data query. -/
def sortCreatedDesc : List Song → List Song
  | [] => []
  | x :: xs => insertCreatedDesc x (sortCreatedDesc xs)

/-- Envelope returned by `getSongs` (db.js): `{songs, total, page, totalPages}`. -/
structure SongsPage where
  songs : List Song
  total : Nat
  page : Nat
  totalPages : Nat
deriving DecidableEq

/-- `getSongs` (db.js): count query plus data query with
`LIMIT ? OFFSET ?`, `offset = (page - 1) * limit`;
`totalPages = Math.ceil(total / limit)`, rendered for natural numbers as
`(total + limit - 1) / limit` (equal to the ceiling for `limit ≥ 1`). -/
def getSongs (db : List Song) (page : Nat) (limit : Nat)
    (category : Option String) : SongsPage :=
  let rows := db.filter (matchesCategory category)
  let offset := (page - 1) * limit
  { songs := ((sortCreatedDesc rows).drop offset).take limit
    total := rows.length
    page := page
    totalPages := (rows.length + limit - 1) / limit }

/-- `getSongBySlugRaw` (db.js): `SELECT * FROM songs WHERE slug = ?`,
`.first()` returning the row or `null`. -/
def getSongBySlugRaw (db : List Song) (slug : String) : Option Song :=
  db.find? (fun s => s.slug = slug)

/-- `incrementViews` (db.js): the single statement
`UPDATE songs SET views = views + 1 WHERE slug = ?`; the boolean is
`result.meta.changes > 0`. -/
def incrementViews (db : List Song) (slug : String) : List Song × Bool :=
  (db.map (fun s => if s.slug = slug then { s with views := s.views + 1 } else s),
   db.any (fun s => s.slug = slug))

/-- Column values supplied to `createSong`/`updateSong` (db.js): every
editable column; `views` and `created_at` are not among them. -/
structure SongFields where
  title : String
  slug : String
  artist_id : Option Nat
  composer_id : Option Nat
  copyright_owner_id : Option Nat
  category : Option String
  lyrics : String
deriving DecidableEq

/-- The surrogate key D1 assigns on INSERT (`last_row_id`): one larger than
every id in the table. -/
def nextSongId (db : List Song) : Nat := (db.map Song.id).foldr max 0 + 1

/-- `createSong` (db.js): INSERT of the editable columns, `views` and
`created_at` taking their schema defaults; returns the new id. -/
def createSong (db : List Song) (f : SongFields) (ts : Nat) : Nat × List Song :=
  let id := nextSongId db
  (id, db ++ [{ id := id, title := f.title, slug := f.slug,
                artist_id := f.artist_id, composer_id := f.composer_id,
                copyright_owner_id := f.copyright_owner_id,
                category := f.category, lyrics := f.lyrics,
                views := 0, created_at := ts }])

/-- `updateSong` (db.js): `UPDATE songs SET title = ?, slug = ?, artist_id = ?,
composer_id = ?, copyright_owner_id = ?, category = ?, lyrics = ? WHERE id = ?`;
the boolean is `result.meta.changes > 0`.  `views` and `created_at` are not in
the SET list. -/
def updateSong (db : List Song) (id : Nat) (f : SongFields) : List Song × Bool :=
  (db.map (fun s =>
      if s.id = id then
        { s with title := f.title, slug := f.slug, artist_id := f.artist_id,
                 composer_id := f.composer_id,
                 copyright_owner_id := f.copyright_owner_id,
                 category := f.category, lyrics := f.lyrics }
      else s),
   db.any (fun s => s.id = id))

/-- `deleteSong` (db.js): `DELETE FROM songs WHERE id = ?`; the boolean is
`result.meta.changes > 0`. -/
def deleteSong (db : List Song) (id : Nat) : List Song × Bool :=
  (db.filter (fun s => ¬ s.id = id), db.any (fun s => s.id = id))

/-! ### Rate limiter (routes.js) -/

/-- `RATE_LIMIT_MS = 60 * 60 * 1000`: the one-hour window. -/
def RATE_LIMIT_MS : Nat := 60 * 60 * 1000

/-- The `viewRateMap`: a JS `Map` from `"slug:ip"` keys to the last accepted
`Date.now()` timestamp, modelled as an association list in insertion order. -/
abbrev RateMap := List (String × Nat)

/-- `Map.prototype.get`. -/
def mapGet : RateMap → String → Option Nat
  | [], _ => none
  | e :: rest, k => if e.1 = k then some e.2 else mapGet rest k

/-- `Map.prototype.set`: overwrite the entry in place, or append a new one. -/
def mapSet : RateMap → String → Nat → RateMap
  | [], k, v => [(k, v)]
  | e :: rest, k, v => if e.1 = k then (k, v) :: rest else e :: mapSet rest k v

/-- The key `` `${slug}:${ip}` ``. -/
def rateKey (slug ip : String) : String := slug ++ ":" ++ ip

/-- Tail of `isRateLimited` once the early `return true` is passed: record
`now` for the key, and when the map holds more than 5000 entries sweep every
entry older than the window. -/
def recordView (m : RateMap) (key : String) (now : Nat) : Bool × RateMap :=
  let m1 := mapSet m key now
  let m2 :=
    if 5000 < m1.length then m1.filter (fun e => ¬ e.2 < now - RATE_LIMIT_MS)
    else m1
  (false, m2)

/-- `isRateLimited` (routes.js).  The JS guard is
`last && Date.now() - last < RATE_LIMIT_MS`: a stored timestamp is consulted
only when truthy (`last ≠ 0`), and a rejected call returns before the map is
touched.  `Date.now()` is one value `now` for the whole call. -/
def isRateLimited (m : RateMap) (now : Nat) (slug ip : String) : Bool × RateMap :=
  match mapGet m (rateKey slug ip) with
  | some last =>
    if last ≠ 0 ∧ now - last < RATE_LIMIT_MS then (true, m)
    else recordView m (rateKey slug ip) now
  | none => recordView m (rateKey slug ip) now

/-! ### Route handlers: songs -/

/-- Responses of `handleViewIncrement`; the numeric status each constructor
carries in the JS `json(..., status)` call is given by `ViewResponse.status`. -/
inductive ViewResponse where
  | badRequest (msg : String)
  | tooManyRequests (msg : String)
  | notFound (msg : String)
  | success (slug : String)
deriving DecidableEq

/-- HTTP status of each `ViewResponse`. -/
def ViewResponse.status : ViewResponse → Nat
  | badRequest _ => 400
  | tooManyRequests _ => 429
  | notFound _ => 404
  | success _ => 200

/-- The client identity of `handleViewIncrement`:
`request.headers.get('CF-Connecting-IP') || 'unknown'`. -/
def clientIp (header : Option String) : String :=
  match header with
  | none => "unknown"
  | some s => if s = "" then "unknown" else s

/-- `handleViewIncrement` (routes.js): empty slug → 400; consult the rate
limiter (which records the call when not limited); limited → 429; then the
atomic `incrementViews`; no matching row → 404; else 200 `{success, slug}`.
Returns the response, the rate map after the call, and the table after the
call. -/
def handleViewIncrement (slug ip : String) (now : Nat) (m : RateMap)
    (db : List Song) : ViewResponse × RateMap × List Song :=
  if slug = "" then (ViewResponse.badRequest "Slug is required", m, db)
  else
    let lr := isRateLimited m now slug ip
    if lr.fst then (ViewResponse.tooManyRequests "View already counted recently", lr.snd, db)
    else
      let iv := incrementViews db slug
      if iv.snd then (ViewResponse.success slug, lr.snd, iv.fst)
      else (ViewResponse.notFound "Song not found", lr.snd, iv.fst)

/-- `page` parsing of `handleGetSongs`:
`Math.max(1, parseInt(url.searchParams.get('page') || '1', 10))`. -/
def handleGetSongs_page (raw : Option String) : Option Int :=
  jsMaxNan 1 (parseIntJS (jsQueryOr raw "1"))

/-- `limit` parsing of `handleGetSongs`:
`Math.min(50, Math.max(1, parseInt(url.searchParams.get('limit') || '20', 10)))`. -/
def handleGetSongs_limit (raw : Option String) : Option Int :=
  jsMinNan 50 (jsMaxNan 1 (parseIntJS (jsQueryOr raw "20")))

/-- `category` parsing of `handleGetSongs`:
`sanitizeQuery(url.searchParams.get('category')) || null`. -/
def handleGetSongs_category (raw : Option String) : Option String :=
  if sanitizeQuery raw = "" then none else some (sanitizeQuery raw)

/-- `handleGetSongs` (routes.js): parse `page`, `limit`, `category`, call the
gateway, answer 200 with the envelope.  When either numeric parameter is
`NaN` (`none`) the JS value reaching the D1 `bind` is not a number and the
query fails: that case is `none` here (a dispatcher-level 500, not a
handler response). -/
def handleGetSongs (db : List Song) (rawPage rawLimit rawCategory : Option String) :
    Option (Nat × SongsPage) :=
  match handleGetSongs_page rawPage, handleGetSongs_limit rawLimit with
  | some p, some l =>
    some (200, getSongs db p.toNat l.toNat (handleGetSongs_category rawCategory))
  | _, _ => none

/-! ### Admin song CRUD handlers -/

/-- JSON body of the admin song create/update endpoints.  A field the client
did not send is `none`.  The numeric id fields are modelled after
`parseInt`: the handler applies only the JS truthiness test
(`artist_id ? parseInt(artist_id, 10) : null`). -/
structure SongBody where
  title : Option String
  slug : Option String
  artist_id : Option Nat
  composer_id : Option Nat
  copyright_owner_id : Option Nat
  category : Option String
  lyrics : Option String
deriving DecidableEq

/-- JS `!x || !x.trim()` for a string field: absent, empty, or blank. -/
def jsFieldMissing : Option String → Bool
  | none => true
  | some s => s = "" || jsTrim s = ""

/-- JS `x ? x : null` for a numeric field (0 is falsy). -/
def jsTruthyNat : Option Nat → Option Nat
  | none => none
  | some n => if n = 0 then none else some n

/-- JS `x?.trim() || null` for an optional text field. -/
def optTrimNull : Option String → Option String
  | none => none
  | some s => if jsTrim s = "" then none else some (jsTrim s)

/-- The slug rule shared by every admin create/update handler:
`slug = (slug && slug.trim()) ? slug.trim() : generateSlug(name)`. -/
def resolveSlug (slugField : Option String) (nameField : String) : String :=
  match slugField with
  | none => generateSlug nameField
  | some s => if s = "" ∨ jsTrim s = "" then generateSlug nameField else jsTrim s

/-- The field object the admin song handlers pass to the gateway: every
string field trimmed, the numeric ids after the JS truthiness test, the
resolved slug. -/
def songFieldsOfBody (b : SongBody) (slg : String) : SongFields :=
  { title := jsTrim (b.title.getD ""), slug := slg,
    artist_id := jsTruthyNat b.artist_id,
    composer_id := jsTruthyNat b.composer_id,
    copyright_owner_id := jsTruthyNat b.copyright_owner_id,
    category := optTrimNull b.category,
    lyrics := jsTrim (b.lyrics.getD "") }

/-- Responses of the admin create handlers. -/
inductive CreateResponse where
  | badRequest (msg : String)
  | conflict (msg : String)
  | created (id : Nat) (slug : String)
deriving DecidableEq

/-- HTTP status of each `CreateResponse`. -/
def CreateResponse.status : CreateResponse → Nat
  | badRequest _ => 400
  | conflict _ => 409
  | created _ _ => 201

/-- Responses of the admin update handlers. -/
inductive UpdateResponse where
  | badRequest (msg : String)
  | conflict (msg : String)
  | notFound (msg : String)
  | success (id : Nat) (slug : String)
deriving DecidableEq

/-- HTTP status of each `UpdateResponse`. -/
def UpdateResponse.status : UpdateResponse → Nat
  | badRequest _ => 400
  | conflict _ => 409
  | notFound _ => 404
  | success _ _ => 200

/-- `handleAdminCreateSong` (routes module): malformed JSON is caught locally
(400); required-field checks; slug defaulting; the pre-insert uniqueness
probe `getSongBySlugRaw` answering 409; then `createSong` and a 201 with
`{success, id, slug}`. -/
def handleAdminCreateSong (db : List Song) (body : Option SongBody) (ts : Nat) :
    CreateResponse × List Song :=
  match body with
  | none => (CreateResponse.badRequest "Invalid JSON body", db)
  | some b =>
    if jsFieldMissing b.title then (CreateResponse.badRequest "Title is required", db)
    else if jsFieldMissing b.lyrics then (CreateResponse.badRequest "Lyrics are required", db)
    else
      let slug := resolveSlug b.slug (b.title.getD "")
      match getSongBySlugRaw db slug with
      | some _ => (CreateResponse.conflict "A song with this slug already exists", db)
      | none =>
        let r := createSong db (songFieldsOfBody b slug) ts
        (CreateResponse.created r.fst slug, r.snd)

/-- `handleAdminUpdateSong` (routes module): same body checks and slug rule
as create; the uniqueness probe answers 409 only when the row it finds is a
different row (`existing.id !== parseInt(id, 10)`); then `updateSong`, whose
`changes = 0` outcome is the 404. -/
def handleAdminUpdateSong (db : List Song) (id : Nat) (body : Option SongBody) :
    UpdateResponse × List Song :=
  match body with
  | none => (UpdateResponse.badRequest "Invalid JSON body", db)
  | some b =>
    if jsFieldMissing b.title then (UpdateResponse.badRequest "Title is required", db)
    else if jsFieldMissing b.lyrics then (UpdateResponse.badRequest "Lyrics are required", db)
    else
      let slug := resolveSlug b.slug (b.title.getD "")
      let conflict : Bool :=
        match getSongBySlugRaw db slug with
        | some ex => ex.id != id
        | none => false
      if conflict then
        (UpdateResponse.conflict "A different song with this slug already exists", db)
      else
        let r := updateSong db id (songFieldsOfBody b slug)
        if r.snd then (UpdateResponse.success id slug, r.fst)
        else (UpdateResponse.notFound "Song not found", r.fst)

/-! ### Artists, composers, copyright owners -/

/-- JS `x || null` for an optional text field (no trim). -/
def optFalsyNull : Option String → Option String
  | none => none
  | some s => if s = "" then none else some s

/-- Row of the `artists` table. -/
structure Artist where
  id : Nat
  name : String
  slug : String
  bio : Option String
  image_url : Option String
  social_links : Option String
  created_at : Nat
deriving DecidableEq

/-- Row of the `composers` table (same columns as `artists`). -/
structure Composer where
  id : Nat
  name : String
  slug : String
  bio : Option String
  image_url : Option String
  social_links : Option String
  created_at : Nat
deriving DecidableEq

/-- JSON body of the admin artist/composer create/update endpoints. -/
structure PersonBody where
  name : Option String
  slug : Option String
  bio : Option String
  image_url : Option String
  social_links : Option String
deriving DecidableEq

/-- `getArtistBySlug` (db.js). -/
def getArtistBySlug (db : List Artist) (slug : String) : Option Artist :=
  db.find? (fun a => a.slug = slug)

/-- D1 `last_row_id` for the `artists` table. -/
def nextArtistId (db : List Artist) : Nat := (db.map Artist.id).foldr max 0 + 1

/-- `createArtist` (db.js). -/
def createArtist (db : List Artist) (name slug : String)
    (bio image_url social_links : Option String) (ts : Nat) : Nat × List Artist :=
  let id := nextArtistId db
  (id, db ++ [{ id := id, name := name, slug := slug, bio := bio,
                image_url := image_url, social_links := social_links,
                created_at := ts }])

/-- `updateArtist` (db.js). -/
def updateArtist (db : List Artist) (id : Nat) (name slug : String)
    (bio image_url social_links : Option String) : List Artist × Bool :=
  (db.map (fun a =>
      if a.id = id then
        { a with name := name, slug := slug, bio := bio,
                 image_url := image_url, social_links := social_links }
      else a),
   db.any (fun a => a.id = id))

/-- `getComposerBySlug` (db.js). -/
def getComposerBySlug (db : List Composer) (slug : String) : Option Composer :=
  db.find? (fun c => c.slug = slug)

/-- D1 `last_row_id` for the `composers` table. -/
def nextComposerId (db : List Composer) : Nat := (db.map Composer.id).foldr max 0 + 1

/-- `createComposer` (db.js). -/
def createComposer (db : List Composer) (name slug : String)
    (bio image_url social_links : Option String) (ts : Nat) : Nat × List Composer :=
  let id := nextComposerId db
  (id, db ++ [{ id := id, name := name, slug := slug, bio := bio,
                image_url := image_url, social_links := social_links,
                created_at := ts }])

/-- `updateComposer` (db.js). -/
def updateComposer (db : List Composer) (id : Nat) (name slug : String)
    (bio image_url social_links : Option String) : List Composer × Bool :=
  (db.map (fun c =>
      if c.id = id then
        { c with name := name, slug := slug, bio := bio,
                 image_url := image_url, social_links := social_links }
      else c),
   db.any (fun c => c.id = id))

/-- `handleAdminCreateArtist` (routes module). -/
def handleAdminCreateArtist (db : List Artist) (body : Option PersonBody) (ts : Nat) :
    CreateResponse × List Artist :=
  match body with
  | none => (CreateResponse.badRequest "Invalid JSON body", db)
  | some b =>
    if jsFieldMissing b.name then (CreateResponse.badRequest "Name is required", db)
    else
      let slug := resolveSlug b.slug (b.name.getD "")
      match getArtistBySlug db slug with
      | some _ => (CreateResponse.conflict "An artist with this slug already exists", db)
      | none =>
        let r := createArtist db (jsTrim (b.name.getD "")) slug
          (optTrimNull b.bio) (optTrimNull b.image_url) (optFalsyNull b.social_links) ts
        (CreateResponse.created r.fst slug, r.snd)

/-- `handleAdminUpdateArtist` (routes module). -/
def handleAdminUpdateArtist (db : List Artist) (id : Nat) (body : Option PersonBody) :
    UpdateResponse × List Artist :=
  match body with
  | none => (UpdateResponse.badRequest "Invalid JSON body", db)
  | some b =>
    if jsFieldMissing b.name then (UpdateResponse.badRequest "Name is required", db)
    else
      let slug := resolveSlug b.slug (b.name.getD "")
      let conflict : Bool :=
        match getArtistBySlug db slug with
        | some ex => ex.id != id
        | none => false
      if conflict then
        (UpdateResponse.conflict "A different artist with this slug already exists", db)
      else
        let r := updateArtist db id (jsTrim (b.name.getD "")) slug
          (optTrimNull b.bio) (optTrimNull b.image_url) (optFalsyNull b.social_links)
        if r.snd then (UpdateResponse.success id slug, r.fst)
        else (UpdateResponse.notFound "Artist not found", r.fst)

/-- `handleAdminCreateComposer` (routes module). -/
def handleAdminCreateComposer (db : List Composer) (body : Option PersonBody) (ts : Nat) :
    CreateResponse × List Composer :=
  match body with
  | none => (CreateResponse.badRequest "Invalid JSON body", db)
  | some b =>
    if jsFieldMissing b.name then (CreateResponse.badRequest "Name is required", db)
    else
      let slug := resolveSlug b.slug (b.name.getD "")
      match getComposerBySlug db slug with
      | some _ => (CreateResponse.conflict "A composer with this slug already exists", db)
      | none =>
        let r := createComposer db (jsTrim (b.name.getD "")) slug
          (optTrimNull b.bio) (optTrimNull b.image_url) (optFalsyNull b.social_links) ts
        (CreateResponse.created r.fst slug, r.snd)

/-- `handleAdminUpdateComposer` (routes module). -/
def handleAdminUpdateComposer (db : List Composer) (id : Nat) (body : Option PersonBody) :
    UpdateResponse × List Composer :=
  match body with
  | none => (UpdateResponse.badRequest "Invalid JSON body", db)
  | some b =>
    if jsFieldMissing b.name then (UpdateResponse.badRequest "Name is required", db)
    else
      let slug := resolveSlug b.slug (b.name.getD "")
      let conflict : Bool :=
        match getComposerBySlug db slug with
        | some ex => ex.id != id
        | none => false
      if conflict then
        (UpdateResponse.conflict "A different composer with this slug already exists", db)
      else
        let r := updateComposer db id (jsTrim (b.name.getD "")) slug
          (optTrimNull b.bio) (optTrimNull b.image_url) (optFalsyNull b.social_links)
        if r.snd then (UpdateResponse.success id slug, r.fst)
        else (UpdateResponse.notFound "Composer not found", r.fst)

/-- Row of the `copyright_owners` table. -/
structure CopyrightOwner where
  id : Nat
  name : String
  slug : String
  full_legal_name : Option String
  organization : Option String
  territory : Option String
  email : Option String
  website : Option String
  address : Option String
  ipi_number : Option String
  isrc_prefix : Option String
  pro_affiliation : Option String
  notes : Option String
  created_at : Nat
deriving DecidableEq

/-- JSON body of the admin copyright-owner create/update endpoints. -/
structure OwnerBody where
  name : Option String
  slug : Option String
  full_legal_name : Option String
  organization : Option String
  territory : Option String
  email : Option String
  website : Option String
  address : Option String
  ipi_number : Option String
  isrc_prefix : Option String
  pro_affiliation : Option String
  notes : Option String
deriving DecidableEq

/-- `getCopyrightOwnerBySlug` (db.js). -/
def getCopyrightOwnerBySlug (db : List CopyrightOwner) (slug : String) :
    Option CopyrightOwner :=
  db.find? (fun o => o.slug = slug)

/-- D1 `last_row_id` for the `copyright_owners` table. -/
def nextOwnerId (db : List CopyrightOwner) : Nat :=
  (db.map CopyrightOwner.id).foldr max 0 + 1

/-- `createCopyrightOwner` (db.js): INSERT of name, slug and the optional
legal/contact metadata columns. -/
def createCopyrightOwner (db : List CopyrightOwner) (name slug : String)
    (meta : List (Option String)) (ts : Nat) : Nat × List CopyrightOwner :=
  let id := nextOwnerId db
  (id, db ++ [{ id := id, name := name, slug := slug,
                full_legal_name := meta.getD 0 none,
                organization := meta.getD 1 none,
                territory := meta.getD 2 none,
                email := meta.getD 3 none,
                website := meta.getD 4 none,
                address := meta.getD 5 none,
                ipi_number := meta.getD 6 none,
                isrc_prefix := meta.getD 7 none,
                pro_affiliation := meta.getD 8 none,
                notes := meta.getD 9 none,
                created_at := ts }])

/-- `updateCopyrightOwner` (db.js). -/
def updateCopyrightOwner (db : List CopyrightOwner) (id : Nat) (name slug : String)
    (meta : List (Option String)) : List CopyrightOwner × Bool :=
  (db.map (fun o =>
      if o.id = id then
        { o with name := name, slug := slug,
                 full_legal_name := meta.getD 0 none,
                 organization := meta.getD 1 none,
                 territory := meta.getD 2 none,
                 email := meta.getD 3 none,
                 website := meta.getD 4 none,
                 address := meta.getD 5 none,
                 ipi_number := meta.getD 6 none,
                 isrc_prefix := meta.getD 7 none,
                 pro_affiliation := meta.getD 8 none,
                 notes := meta.getD 9 none }
      else o),
   db.any (fun o => o.id = id))

/-- The ten `field?.trim() || null` metadata arguments the owner handlers
pass to the gateway, in column order. -/
def ownerMeta (b : OwnerBody) : List (Option String) :=
  match b with
  | ⟨_, _, flname, org, terr, email, web, addr, ipi, isrcp, pro, notes⟩ =>
    [optTrimNull flname, optTrimNull org, optTrimNull terr, optTrimNull email,
     optTrimNull web, optTrimNull addr, optTrimNull ipi, optTrimNull isrcp,
     optTrimNull pro, optTrimNull notes]

/-- `handleAdminCreateCopyrightOwner` (routes module). -/
def handleAdminCreateCopyrightOwner (db : List CopyrightOwner)
    (body : Option OwnerBody) (ts : Nat) : CreateResponse × List CopyrightOwner :=
  match body with
  | none => (CreateResponse.badRequest "Invalid JSON body", db)
  | some b =>
    if jsFieldMissing b.name then (CreateResponse.badRequest "Name is required", db)
    else
      let slug := resolveSlug b.slug (b.name.getD "")
      match getCopyrightOwnerBySlug db slug with
      | some _ =>
        (CreateResponse.conflict "A copyright owner with this slug already exists", db)
      | none =>
        let r := createCopyrightOwner db (jsTrim (b.name.getD "")) slug (ownerMeta b) ts
        (CreateResponse.created r.fst slug, r.snd)

/-- `handleAdminUpdateCopyrightOwner` (routes module). -/
def handleAdminUpdateCopyrightOwner (db : List CopyrightOwner) (id : Nat)
    (body : Option OwnerBody) : UpdateResponse × List CopyrightOwner :=
  match body with
  | none => (UpdateResponse.badRequest "Invalid JSON body", db)
  | some b =>
    if jsFieldMissing b.name then (UpdateResponse.badRequest "Name is required", db)
    else
      let slug := resolveSlug b.slug (b.name.getD "")
      let conflict : Bool :=
        match getCopyrightOwnerBySlug db slug with
        | some ex => ex.id != id
        | none => false
      if conflict then
        (UpdateResponse.conflict "A different copyright owner with this slug already exists", db)
      else
        let r := updateCopyrightOwner db id (jsTrim (b.name.getD "")) slug (ownerMeta b)
        if r.snd then (UpdateResponse.success id slug, r.fst)
        else (UpdateResponse.notFound "Copyright owner not found", r.fst)

/-! ### Reports and contact messages -/

/-- Row of the `reports` table: a denormalized snapshot with `status`
defaulting to `"pending"`. -/
structure Report where
  id : Nat
  song_slug : Option String
  song_title : Option String
  song_artist : Option String
  reporter_name : String
  reporter_email : String
  body : String
  status : String
  created_at : Nat
deriving DecidableEq

/-- Row of the `contacts` table. -/
structure Contact where
  id : Nat
  name : String
  email : String
  subject : String
  message : String
  created_at : Nat
deriving DecidableEq

/-- JSON body of `POST /api/report`. -/
structure ReportBody where
  song_slug : Option String
  song_title : Option String
  song_artist : Option String
  reporter_name : Option String
  reporter_email : Option String
  body : Option String
  turnstile_token : Option String
deriving DecidableEq

/-- JSON body of `PUT /api/admin/report/:id`. -/
structure ReportStatusBody where
  status : Option String
deriving DecidableEq

/-- JSON body of `POST /api/contact`. -/
structure ContactBody where
  name : Option String
  email : Option String
  subject : Option String
  message : Option String
  turnstile_token : Option String
deriving DecidableEq

/-- JS `!x` for an optional string (absent or empty is falsy). -/
def jsStrFalsy : Option String → Bool
  | none => true
  | some s => s = ""

/-- Characters admissible in the email regex classes `[^\s@]`. -/
def noAtNoSpace (l : List Char) : Bool := l.all (fun c => !(isJsSpace c) && c ≠ '@')

/-- The email shape check `^[^\s@]+@[^\s@]+\.[^\s@]+$`: exactly one `@`, a
nonempty local part, and a domain containing a dot that is neither its first
nor its last character, no whitespace anywhere. -/
def emailValid (s : String) : Bool :=
  match s.data.splitOn '@' with
  | [lp, dp] =>
    !lp.isEmpty && noAtNoSpace lp && !dp.isEmpty && noAtNoSpace dp &&
      ((dp.drop 1).dropLast).contains '.'
  | _ => false

/-- Outcome of the external Turnstile verification `fetch`. -/
inductive TurnstileOutcome where
  | ok (success : Bool)
  | unreachable
deriving DecidableEq

/-- Responses of the report/contact submission handlers. -/
inductive SubmitResponse where
  | badRequest (msg : String)
  | forbidden (msg : String)
  | unavailable (msg : String)
  | created (id : Nat)
deriving DecidableEq

/-- HTTP status of each `SubmitResponse` (`unavailable` is the in-handler
`json(..., 500)` of the Turnstile catch block). -/
def SubmitResponse.status : SubmitResponse → Nat
  | badRequest _ => 400
  | forbidden _ => 403
  | unavailable _ => 500
  | created _ => 201

/-- Responses of `handleUpdateReportStatus` and the delete handlers. -/
inductive SimpleResponse where
  | badRequest (msg : String)
  | notFound (msg : String)
  | success
deriving DecidableEq

/-- HTTP status of each `SimpleResponse`. -/
def SimpleResponse.status : SimpleResponse → Nat
  | badRequest _ => 400
  | notFound _ => 404
  | success => 200

/-- D1 `last_row_id` for the `reports` table. -/
def nextReportId (db : List Report) : Nat := (db.map Report.id).foldr max 0 + 1

/-- `createReport` (db.js): the song fields are bound as `x || null`,
`status` and `created_at` take their schema defaults. -/
def createReport (db : List Report) (song_slug song_title song_artist : Option String)
    (reporter_name reporter_email bodyText : String) (ts : Nat) : Nat × List Report :=
  let id := nextReportId db
  (id, db ++ [{ id := id, song_slug := optFalsyNull song_slug,
                song_title := optFalsyNull song_title,
                song_artist := optFalsyNull song_artist,
                reporter_name := reporter_name, reporter_email := reporter_email,
                body := bodyText, status := "pending", created_at := ts }])

/-- `updateReportStatus` (db.js): `UPDATE reports SET status = ? WHERE id = ?`. -/
def updateReportStatus (db : List Report) (id : Nat) (st : String) : List Report × Bool :=
  (db.map (fun r => if r.id = id then { r with status := st } else r),
   db.any (fun r => r.id = id))

/-- D1 `last_row_id` for the `contacts` table. -/
def nextContactId (db : List Contact) : Nat := (db.map Contact.id).foldr max 0 + 1

/-- `createContact` (db.js): `subject || 'General'` is applied at the bind. -/
def createContact (db : List Contact) (name email subject message : String)
    (ts : Nat) : Nat × List Contact :=
  let id := nextContactId db
  (id, db ++ [{ id := id, name := name, email := email,
                subject := if subject = "" then "General" else subject,
                message := message, created_at := ts }])

/-- `handleCreateReport` (routes module).  The very first statement is
`await request.json()` with no try/catch: a malformed body throws out of the
handler (`Except.error`), every later failure is a locally produced
response.  The Turnstile `fetch` is wrapped in its own try/catch, so an
unreachable verification service is a local 500. -/
def handleCreateReport (body : Option ReportBody) (ts : TurnstileOutcome)
    (db : List Report) (now : Nat) : Except Unit (SubmitResponse × List Report) :=
  match body with
  | none => Except.error ()
  | some b =>
    if jsStrFalsy b.reporter_name || jsStrFalsy b.reporter_email || jsStrFalsy b.body then
      Except.ok (SubmitResponse.badRequest "Name, email, and description are required.", db)
    else if !emailValid (b.reporter_email.getD "") then
      Except.ok (SubmitResponse.badRequest "Invalid email address.", db)
    else if jsStrFalsy b.turnstile_token then
      Except.ok (SubmitResponse.badRequest "Verification challenge is required.", db)
    else
      match ts with
      | TurnstileOutcome.unreachable =>
        Except.ok (SubmitResponse.unavailable "Verification service unavailable.", db)
      | TurnstileOutcome.ok success =>
        if !success then
          Except.ok (SubmitResponse.forbidden "Verification failed. Please try again.", db)
        else
          let r := createReport db b.song_slug b.song_title b.song_artist
            (b.reporter_name.getD "") (b.reporter_email.getD "") (b.body.getD "") now
          Except.ok (SubmitResponse.created r.fst, r.snd)

/-- `handleUpdateReportStatus` (routes module): `await request.json()` is
again outside any try/catch; any non-empty status string is accepted. -/
def handleUpdateReportStatus (id : Nat) (body : Option ReportStatusBody)
    (db : List Report) : Except Unit (SimpleResponse × List Report) :=
  match body with
  | none => Except.error ()
  | some b =>
    if jsStrFalsy b.status then Except.ok (SimpleResponse.badRequest "Status is required", db)
    else
      let r := updateReportStatus db id (b.status.getD "")
      if r.snd then Except.ok (SimpleResponse.success, r.fst)
      else Except.ok (SimpleResponse.notFound "Report not found", r.fst)

/-- `handleCreateContact` (routes module): same unguarded `request.json()`
as `handleCreateReport`. -/
def handleCreateContact (body : Option ContactBody) (ts : TurnstileOutcome)
    (db : List Contact) (now : Nat) : Except Unit (SubmitResponse × List Contact) :=
  match body with
  | none => Except.error ()
  | some b =>
    if jsStrFalsy b.name || jsStrFalsy b.email || jsStrFalsy b.message then
      Except.ok (SubmitResponse.badRequest "Name, email, and message are required.", db)
    else if !emailValid (b.email.getD "") then
      Except.ok (SubmitResponse.badRequest "Invalid email address.", db)
    else if jsStrFalsy b.turnstile_token then
      Except.ok (SubmitResponse.badRequest "Verification challenge is required.", db)
    else
      match ts with
      | TurnstileOutcome.unreachable =>
        Except.ok (SubmitResponse.unavailable "Verification service unavailable.", db)
      | TurnstileOutcome.ok success =>
        if !success then
          Except.ok (SubmitResponse.forbidden "Verification failed. Please try again.", db)
        else
          let r := createContact db (b.name.getD "") (b.email.getD "")
            (jsQueryOr b.subject "General") (b.message.getD "") now
          Except.ok (SubmitResponse.created r.fst, r.snd)

/-- The dispatcher's top-level catch (worker.js): an exception escaping a
handler becomes a generic 500; a handler response keeps its own status. -/
def topLevelStatus {ρ σ : Type} (statusOf : ρ → Nat) : Except Unit (ρ × σ) → Nat
  | Except.error _ => 500
  | Except.ok r => statusOf r.fst

/-! ### The gateway operations as a transition system (for the `views`
invariant) -/

/-- One mutation of the `songs` table through the Persistence Gateway. -/
inductive GatewayOp where
  | createOp (f : SongFields) (ts : Nat)
  | updateOp (id : Nat) (f : SongFields)
  | deleteOp (id : Nat)
  | incrementOp (slug : String)

/-- The table after one gateway operation. -/
def applyOp (db : List Song) : GatewayOp → List Song
  | GatewayOp.createOp f ts => (createSong db f ts).snd
  | GatewayOp.updateOp id f => (updateSong db id f).fst
  | GatewayOp.deleteOp id => (deleteSong db id).fst
  | GatewayOp.incrementOp slug => (incrementViews db slug).fst

/-- The table after a sequence of gateway operations. -/
def applyOps (db : List Song) (ops : List GatewayOp) : List Song :=
  ops.foldl applyOp db

/-- Lookup of a song row by id (`SELECT ... WHERE s.id = ?`, `.first()`). -/
def findById (db : List Song) (id : Nat) : Option Song :=
  db.find? (fun s => s.id = id)

/-! ### Concrete sample data for the witnesses -/

/-- A first sample row. -/
def demoSong1 : Song :=
  { id := 1, title := "Mara Hlasak", slug := "mara-hlasak", artist_id := some 1,
    composer_id := some 1, copyright_owner_id := none,
    category := some "Traditional", lyrics := "Line 1", views := 3, created_at := 10 }

/-- A second sample row. -/
def demoSong2 : Song :=
  { id := 2, title := "Ka Lunglen", slug := "ka-lunglen", artist_id := some 2,
    composer_id := none, copyright_owner_id := none,
    category := some "Love", lyrics := "Ka lunglen", views := 7, created_at := 20 }

/-- A two-row sample table. -/
def demoDb : List Song := [demoSong1, demoSong2]

/-- The create request of the spec's scenario: `{title: "Test Song",
lyrics: "line1\nline2"}`, no slug. -/
def testSongBody : SongBody :=
  { title := some "Test Song", slug := none, artist_id := none,
    composer_id := none, copyright_owner_id := none, category := none,
    lyrics := some "line1\nline2" }

/-- The table after the scenario's first create. -/
def testSongRow : Song :=
  { id := 1, title := "Test Song", slug := "test-song", artist_id := none,
    composer_id := none, copyright_owner_id := none, category := none,
    lyrics := "line1\nline2", views := 0, created_at := 0 }

/-- An update request whose explicit slug collides with `demoSong1`. -/
def collidingUpdateBody : SongBody :=
  { title := some "Other Title", slug := some "mara-hlasak", artist_id := none,
    composer_id := none, copyright_owner_id := none, category := none,
    lyrics := some "other lyrics" }

/-- An update request for `demoSong1` keeping its own slug. -/
def selfUpdateBody : SongBody :=
  { title := some "New Title", slug := some "mara-hlasak", artist_id := none,
    composer_id := none, copyright_owner_id := none, category := none,
    lyrics := some "new lyrics" }

/-! ### Canonical form of a generated slug (proof support) -/

/-- Characters a finished slug may contain: lowercase letters, digits, `'-'`. -/
def isSlugChar (c : Char) : Bool :=
  (97 ≤ c.toNat && c.toNat ≤ 122) || (48 ≤ c.toNat && c.toNat ≤ 57) || c = '-'

/-- No two adjacent hyphens. -/
def noDoubleHyphen : List Char → Bool
  | [] => true
  | [_] => true
  | a :: b :: rest => !(a = '-' && b = '-') && noDoubleHyphen (b :: rest)

/-- The first character, when there is one, is not a hyphen. -/
def headNotHyphen : List Char → Bool
  | [] => true
  | c :: _ => c ≠ '-'

/-- The last character, when there is one, is not a hyphen. -/
def lastNotHyphen : List Char → Bool
  | [] => true
  | [c] => c ≠ '-'
  | _ :: rest => lastNotHyphen rest

/-- The canonical form `generateSlug` produces; every list in this form is a
fixed point of the slug pipeline. -/
def slugCanonical (l : List Char) : Bool :=
  l.all isSlugChar && noDoubleHyphen l && headNotHyphen l && lastNotHyphen l

/-! ## Helper lemmas -/

theorem length_insertCreatedDesc (x : Song) (l : List Song) :
    (insertCreatedDesc x l).length = l.length + 1 := by
  induction l with
  | nil => rfl
  | cons y ys ih =>
    rw [insertCreatedDesc]
    split
    · simp [ih]
    · simp

theorem length_sortCreatedDesc (l : List Song) :
    (sortCreatedDesc l).length = l.length := by
  induction l with
  | nil => rfl
  | cons x xs ih => rw [sortCreatedDesc, length_insertCreatedDesc, ih, List.length_cons]

theorem ceilDiv_mul_ge (t limit : Nat) (hl : 1 ≤ limit) :
    t ≤ limit * ((t + limit - 1) / limit) := by
  have hmod := Nat.div_add_mod (t + limit - 1) limit
  have hr : (t + limit - 1) % limit < limit := Nat.mod_lt _ (by omega)
  revert hmod hr
  generalize limit * ((t + limit - 1) / limit) = A
  generalize (t + limit - 1) % limit = r
  intro hmod hr
  omega

theorem ceilDiv_le_of_le_mul (t limit k : Nat) (hl : 1 ≤ limit)
    (h : t ≤ limit * k) : (t + limit - 1) / limit ≤ k := by
  rw [Nat.div_le_iff_le_mul_add_pred (by omega)]
  revert h
  generalize limit * k = B
  intro h
  omega

/-! ## C1: pagination -/

/-- C1: for every `page ≥ 1`, `limit ≥ 1` and store contents, with or
without a category filter, `getSongs` answers an envelope whose `total` is
the number of matching rows, whose `page` echoes the argument, whose
`totalPages` is `⌈total / limit⌉` (characterized as the least `k` with
`total ≤ limit * k`), and whose item list is empty for every
`page > totalPages` — still a success envelope, since the gateway is a
total function into `SongsPage` and the handler wraps it in a 200. -/
theorem getSongs_pagination_correct (db : List Song) (page limit : Nat)
    (category : Option String) (hpage : 1 ≤ page) (hlimit : 1 ≤ limit) :
    (getSongs db page limit category).total
        = (db.filter (matchesCategory category)).length ∧
    (getSongs db page limit category).page = page ∧
    (getSongs db page limit category).total
        ≤ limit * (getSongs db page limit category).totalPages ∧
    (∀ k : Nat, (getSongs db page limit category).total ≤ limit * k →
        (getSongs db page limit category).totalPages ≤ k) ∧
    ((getSongs db page limit category).totalPages < page →
        (getSongs db page limit category).songs = []) := by
  refine ⟨rfl, rfl, ceilDiv_mul_ge _ limit hlimit,
    fun k hk => ceilDiv_le_of_le_mul _ limit k hlimit hk, fun hlt => ?_⟩
  set t := (db.filter (matchesCategory category)).length with ht
  have h1 : t ≤ limit * ((t + limit - 1) / limit) := ceilDiv_mul_ge _ limit hlimit
  have h2 : (t + limit - 1) / limit ≤ page - 1 := by
    have : (t + limit - 1) / limit < page := hlt
    omega
  have h3 : limit * ((t + limit - 1) / limit) ≤ limit * (page - 1) :=
    Nat.mul_le_mul_left _ h2
  have hlen : (sortCreatedDesc (db.filter (matchesCategory category))).length
      ≤ (page - 1) * limit := by
    rw [length_sortCreatedDesc, ← ht, Nat.mul_comm]
    omega
  show ((sortCreatedDesc (db.filter (matchesCategory category))).drop
      ((page - 1) * limit)).take limit = []
  rw [List.drop_eq_nil_of_le hlen, List.take_nil]

/-- Concrete instance of C1: on the two-row sample table, page 5 of size 2
is empty and the totals are as computed. -/
theorem getSongs_pagination_correct_witness :
    (getSongs demoDb 5 2 none).songs = [] ∧
    (getSongs demoDb 5 2 none).total ≤ 2 * (getSongs demoDb 5 2 none).totalPages :=
  ⟨(getSongs_pagination_correct demoDb 5 2 none (by decide) (by decide)).2.2.2.2
      (by decide),
   (getSongs_pagination_correct demoDb 5 2 none (by decide) (by decide)).2.2.1⟩

/-! ## Helper lemmas: increment and rate limiter -/

theorem incrementViews_snd_false (db : List Song) (slug : String)
    (h : ∀ s ∈ db, ¬ s.slug = slug) : (incrementViews db slug).snd = false := by
  show db.any _ = false
  simp only [List.any_eq_false, decide_eq_true_eq]
  exact h

theorem incrementViews_id_of_absent (db : List Song) (slug : String)
    (h : ∀ s ∈ db, ¬ s.slug = slug) : (incrementViews db slug).fst = db := by
  show db.map _ = db
  rw [List.map_congr_left (g := id) ?_, List.map_id]
  intro s hs
  simp [h s hs]

theorem mapGet_mapSet_self (m : RateMap) (k : String) (v : Nat) :
    mapGet (mapSet m k v) k = some v := by
  induction m with
  | nil => simp [mapSet, mapGet]
  | cons e rest ih =>
    by_cases h : e.1 = k
    · simp [mapSet, h, mapGet]
    · simp [mapSet, h, mapGet, ih]

theorem mapGet_filter (m : RateMap) (k : String) (v : Nat) (p : String × Nat → Bool)
    (hv : mapGet m k = some v) (hp : p (k, v) = true) :
    mapGet (m.filter p) k = some v := by
  induction m with
  | nil => simp [mapGet] at hv
  | cons e rest ih =>
    by_cases h : e.1 = k
    · have hev : e.2 = v := by
        have := hv
        simp only [mapGet, if_pos h] at this
        exact Option.some.inj this
      have he : e = (k, v) := by
        cases e
        simp only at h hev
        rw [h, hev]
      subst he
      simp [List.filter_cons, hp, mapGet]
    · have hv' : mapGet rest k = some v := by
        have := hv
        simp only [mapGet, if_neg h] at this
        exact this
      by_cases hq : p e = true
      · simp [List.filter_cons, hq, mapGet, h, ih hv']
      · rw [List.filter_cons, if_neg hq]
        exact ih hv'

theorem recordView_fst (m : RateMap) (k : String) (now : Nat) :
    (recordView m k now).fst = false := rfl

theorem recordView_get (m : RateMap) (k : String) (now : Nat) :
    mapGet (recordView m k now).snd k = some now := by
  simp only [recordView]
  split
  · refine mapGet_filter _ _ _ _ (mapGet_mapSet_self m k now) ?_
    simp only [decide_eq_true_eq]
    omega
  · exact mapGet_mapSet_self m k now

/-! ## C2: view increment -/

/-- C2: `incrementViews` answers `true` iff a row with the slug exists; it
maps every row to itself except a slug match, whose `views` alone grows by
exactly 1; on `false` the table is fully unchanged, and the handler (once
past the rate gate) answers 404 with the table unchanged — no exception,
the functions being total. -/
theorem incrementViews_spec (db : List Song) (slug : String) :
    ((incrementViews db slug).snd = true ↔ ∃ s ∈ db, s.slug = slug) ∧
    ((incrementViews db slug).snd = false → (incrementViews db slug).fst = db) ∧
    (∀ i : Nat, ((incrementViews db slug).fst)[i]?
        = (db[i]?).map (fun s =>
            if s.slug = slug then { s with views := s.views + 1 } else s)) ∧
    (∀ (m : RateMap) (now : Nat) (ip : String), slug ≠ "" →
      (∀ s ∈ db, ¬ s.slug = slug) → (isRateLimited m now slug ip).fst = false →
      (handleViewIncrement slug ip now m db).fst
          = ViewResponse.notFound "Song not found" ∧
      (handleViewIncrement slug ip now m db).snd.snd = db) := by
  refine ⟨?_, ?_, ?_, ?_⟩
  · show db.any _ = true ↔ _
    simp [List.any_eq_true]
  · intro h
    refine incrementViews_id_of_absent db slug ?_
    have h' : db.any (fun s => s.slug = slug) = false := h
    simpa [List.any_eq_false] using h'
  · intro i
    show (db.map _)[i]? = _
    rw [List.getElem?_map]
  · intro m now ip hs hne hlr
    have hiv := incrementViews_snd_false db slug hne
    have hid := incrementViews_id_of_absent db slug hne
    have hfull : handleViewIncrement slug ip now m db
        = (ViewResponse.notFound "Song not found",
           (isRateLimited m now slug ip).snd, db) := by
      simp [handleViewIncrement, hs, hlr, hiv, hid]
    exact ⟨by rw [hfull], by rw [hfull]⟩

/-- Concrete instance of C2: on the sample table, incrementing an existing
slug reports `true`, incrementing an absent slug leaves the table intact. -/
theorem incrementViews_spec_witness :
    (incrementViews demoDb "mara-hlasak").snd = true ∧
    (incrementViews demoDb "nope").fst = demoDb :=
  ⟨(incrementViews_spec demoDb "mara-hlasak").1.mpr ⟨demoSong1, by decide, by decide⟩,
   (incrementViews_spec demoDb "nope").2.1 (by decide)⟩

/-! ## C3: rate-limit window -/

/-- C3: with an entry for the pair recorded at a (positive, as `Date.now()`
always is) timestamp `last`: a call strictly inside the one-hour window is
rejected — map and table untouched, handler answering 429; a call at or
after the window's end is accepted and `now` is recorded for the pair; and
with no entry at all the call is accepted and `now` recorded. -/
theorem rateLimiter_window_spec (m : RateMap) (now : Nat) (slug ip : String)
    (db : List Song) :
    (∀ last, mapGet m (rateKey slug ip) = some last → 0 < last →
        now - last < RATE_LIMIT_MS →
        isRateLimited m now slug ip = (true, m) ∧
        (slug ≠ "" →
          handleViewIncrement slug ip now m db
            = (ViewResponse.tooManyRequests "View already counted recently", m, db))) ∧
    (∀ last, mapGet m (rateKey slug ip) = some last → RATE_LIMIT_MS ≤ now - last →
        (isRateLimited m now slug ip).fst = false ∧
        mapGet (isRateLimited m now slug ip).snd (rateKey slug ip) = some now) ∧
    (mapGet m (rateKey slug ip) = none →
        (isRateLimited m now slug ip).fst = false ∧
        mapGet (isRateLimited m now slug ip).snd (rateKey slug ip) = some now) := by
  refine ⟨?_, ?_, ?_⟩
  · intro last hlast h0 hwin
    have hlim : isRateLimited m now slug ip = (true, m) := by
      simp only [isRateLimited, hlast]
      rw [if_pos ⟨by omega, hwin⟩]
    refine ⟨hlim, fun hs => ?_⟩
    simp [handleViewIncrement, hs, hlim]
  · intro last hlast hwin
    have hrec : isRateLimited m now slug ip = recordView m (rateKey slug ip) now := by
      simp only [isRateLimited, hlast]
      rw [if_neg]
      rintro ⟨-, hlt⟩
      omega
    rw [hrec]
    exact ⟨rfl, recordView_get _ _ _⟩
  · intro hnone
    have hrec : isRateLimited m now slug ip = recordView m (rateKey slug ip) now := by
      simp only [isRateLimited, hnone]
    rw [hrec]
    exact ⟨rfl, recordView_get _ _ _⟩

/-- Concrete instance of C3: a second call 5 ms after a recorded view is
rejected; a call a full window later is accepted. -/
theorem rateLimiter_window_spec_witness :
    isRateLimited [("s:9.9.9.9", 5)] 10 "s" "9.9.9.9" = (true, [("s:9.9.9.9", 5)]) ∧
    (isRateLimited [("s:9.9.9.9", 5)] (5 + RATE_LIMIT_MS) "s" "9.9.9.9").fst = false :=
  ⟨((rateLimiter_window_spec [("s:9.9.9.9", 5)] 10 "s" "9.9.9.9" demoDb).1 5
      (by decide) (by decide) (by decide)).1,
   ((rateLimiter_window_spec [("s:9.9.9.9", 5)] (5 + RATE_LIMIT_MS) "s" "9.9.9.9"
      demoDb).2.1 5 (by decide) (by decide)).1⟩

/-! ## C10: rate limiter consulted before existence -/

/-- C10: for a slug with no row, a first call still records the rate-limit
timestamp while answering 404, and a second call from the same pair inside
the window answers 429, not 404 — the handler consults and updates the
limiter before the existence check. -/
theorem viewIncrement_limiter_before_existence (m : RateMap) (db : List Song)
    (slug ip : String) (now now2 : Nat)
    (hs : slug ≠ "") (hm : mapGet m (rateKey slug ip) = none)
    (hdb : ∀ s ∈ db, ¬ s.slug = slug) (h0 : 0 < now)
    (hw : now2 - now < RATE_LIMIT_MS) :
    (handleViewIncrement slug ip now m db).fst = ViewResponse.notFound "Song not found" ∧
    mapGet (handleViewIncrement slug ip now m db).snd.fst (rateKey slug ip) = some now ∧
    (handleViewIncrement slug ip now m db).snd.snd = db ∧
    (handleViewIncrement slug ip now2 (handleViewIncrement slug ip now m db).snd.fst
        (handleViewIncrement slug ip now m db).snd.snd).fst
      = ViewResponse.tooManyRequests "View already counted recently" := by
  have h1 : isRateLimited m now slug ip = recordView m (rateKey slug ip) now := by
    simp only [isRateLimited, hm]
  have hiv := incrementViews_snd_false db slug hdb
  have hid := incrementViews_id_of_absent db slug hdb
  have hfull : handleViewIncrement slug ip now m db
      = (ViewResponse.notFound "Song not found",
         (recordView m (rateKey slug ip) now).snd, db) := by
    simp [handleViewIncrement, hs, h1, hiv, hid, recordView_fst]
  have hget : mapGet (recordView m (rateKey slug ip) now).snd (rateKey slug ip)
      = some now := recordView_get _ _ _
  have h2 : isRateLimited (recordView m (rateKey slug ip) now).snd now2 slug ip
      = (true, (recordView m (rateKey slug ip) now).snd) := by
    simp only [isRateLimited, hget]
    rw [if_pos ⟨by omega, hw⟩]
  refine ⟨by rw [hfull], by rw [hfull]; exact hget, by rw [hfull], ?_⟩
  rw [hfull]
  simp [handleViewIncrement, hs, h2]

/-! ## C4: create defaults the slug and probes uniqueness -/

/-- C4: for a valid create body whose slug field is omitted or blank, the
slug becomes `generateSlug` of the title; when a row with that slug exists
the answer is 409 and the table is untouched; otherwise the answer is 201
with `{success, id, slug}` and exactly the new row is appended (its
persisted slug equal to the returned derived slug).  The first conjunct ties
the uniqueness probe to row existence. -/
theorem adminCreateSong_slug_rules (db : List Song) (b : SongBody) (ts : Nat)
    (ht : jsFieldMissing b.title = false) (hl : jsFieldMissing b.lyrics = false)
    (hb : b.slug = none ∨ ∃ s, b.slug = some s ∧ jsTrim s = "") :
    (getSongBySlugRaw db (generateSlug (b.title.getD "")) = none ↔
        ∀ s ∈ db, ¬ s.slug = generateSlug (b.title.getD "")) ∧
    (∀ ex, getSongBySlugRaw db (generateSlug (b.title.getD "")) = some ex →
        handleAdminCreateSong db (some b) ts
          = (CreateResponse.conflict "A song with this slug already exists", db)) ∧
    (getSongBySlugRaw db (generateSlug (b.title.getD "")) = none →
        handleAdminCreateSong db (some b) ts
          = (CreateResponse.created (nextSongId db) (generateSlug (b.title.getD "")),
             db ++ [{ id := nextSongId db, title := jsTrim (b.title.getD ""),
                      slug := generateSlug (b.title.getD ""),
                      artist_id := jsTruthyNat b.artist_id,
                      composer_id := jsTruthyNat b.composer_id,
                      copyright_owner_id := jsTruthyNat b.copyright_owner_id,
                      category := optTrimNull b.category,
                      lyrics := jsTrim (b.lyrics.getD ""),
                      views := 0, created_at := ts }])) := by
  have hres : resolveSlug b.slug (b.title.getD "") = generateSlug (b.title.getD "") := by
    rcases hb with h | ⟨s, hbs, hts⟩
    · rw [h, resolveSlug]
    · rw [hbs, resolveSlug, if_pos (Or.inr hts)]
  refine ⟨?_, ?_, ?_⟩
  · simp [getSongBySlugRaw, List.find?_eq_none]
  · intro ex hex
    simp [handleAdminCreateSong, ht, hl, hres, hex]
  · intro hnone
    simp [handleAdminCreateSong, ht, hl, hres, hnone, createSong, songFieldsOfBody]

/-- Concrete instance of C4, the spec's scenario: `{title: "Test Song",
lyrics: "line1\nline2"}` without a slug creates row 1 with slug
`"test-song"`, and the identical second request is a 409. -/
theorem adminCreateSong_slug_rules_witness :
    handleAdminCreateSong [] (some testSongBody) 0
      = (CreateResponse.created 1 "test-song", [testSongRow]) ∧
    (handleAdminCreateSong [testSongRow] (some testSongBody) 9).fst
      = CreateResponse.conflict "A song with this slug already exists" := by
  constructor
  · have h := (adminCreateSong_slug_rules [] testSongBody 0 (by decide) (by decide)
      (Or.inl rfl)).2.2 (by decide)
    exact h.trans (by decide)
  · have h := (adminCreateSong_slug_rules [testSongRow] testSongBody 9 (by decide)
      (by decide) (Or.inl rfl)).2.1 testSongRow (by decide)
    rw [h]

/-! ## C5: update excludes the target row from the uniqueness probe -/

theorem updateSong_snd_iff (db : List Song) (id : Nat) (f : SongFields) :
    (updateSong db id f).snd = true ↔ ∃ s ∈ db, s.id = id := by
  show db.any _ = true ↔ _
  simp [List.any_eq_true]

theorem updateSong_id_of_absent (db : List Song) (i : Nat) (f : SongFields)
    (h : ∀ s ∈ db, ¬ s.id = i) : (updateSong db i f).fst = db := by
  show db.map _ = db
  rw [List.map_congr_left (g := fun s => s) ?_]
  · simp
  · intro s hs
    simp [h s hs]

/-- C5 (amended): for a valid update body resolving to slug `slg`: when
every row the probe can find under `slg` is the target row itself there is
never a 409 — the outcome is 200 on an existing target and 404 on an absent
one; when the probe finds a different row the outcome is 409 with the table
untouched.  (The claim's unconditional `404 when the id is absent` is
amended: the conflict check runs first, see the counterexample.) -/
theorem adminUpdateSong_excludes_self (db : List Song) (id : Nat) (b : SongBody)
    (slg : String) (ht : jsFieldMissing b.title = false)
    (hl : jsFieldMissing b.lyrics = false)
    (hslg : resolveSlug b.slug (b.title.getD "") = slg) :
    ((∀ ex, getSongBySlugRaw db slg = some ex → ex.id = id) →
      ((∃ s ∈ db, s.id = id) →
        handleAdminUpdateSong db id (some b)
          = (UpdateResponse.success id slg,
             (updateSong db id (songFieldsOfBody b slg)).fst)) ∧
      ((∀ s ∈ db, ¬ s.id = id) →
        handleAdminUpdateSong db id (some b)
          = (UpdateResponse.notFound "Song not found", db))) ∧
    (∀ ex, getSongBySlugRaw db slg = some ex → ¬ ex.id = id →
      handleAdminUpdateSong db id (some b)
        = (UpdateResponse.conflict "A different song with this slug already exists", db)) := by
  constructor
  · intro hnoc
    have hcf : (match getSongBySlugRaw db slg with
        | some ex => ex.id != id
        | none => false) = false := by
      cases hfind : getSongBySlugRaw db slg with
      | none => rfl
      | some ex => simp [hnoc ex hfind]
    constructor
    · intro hex
      have hupd : (updateSong db id (songFieldsOfBody b slg)).snd = true :=
        (updateSong_snd_iff db id _).mpr hex
      simp [handleAdminUpdateSong, ht, hl, hslg, hcf, hupd]
    · intro habs
      have hupd : (updateSong db id (songFieldsOfBody b slg)).snd = false := by
        rw [← Bool.not_eq_true, updateSong_snd_iff]
        push_neg
        exact habs
      have hid := updateSong_id_of_absent db id (songFieldsOfBody b slg) habs
      simp [handleAdminUpdateSong, ht, hl, hslg, hcf, hupd, hid]
  · intro ex hex hne
    have hcf : (match getSongBySlugRaw db slg with
        | some ex => ex.id != id
        | none => false) = true := by
      simp [hex, hne]
    simp [handleAdminUpdateSong, ht, hl, hslg, hcf]

/-- Concrete instance of C5: updating `demoSong1` (id 1) while keeping its
own slug is a 200, no self-conflict. -/
theorem adminUpdateSong_excludes_self_witness :
    handleAdminUpdateSong demoDb 1 (some selfUpdateBody)
      = (UpdateResponse.success 1 "mara-hlasak",
         (updateSong demoDb 1 (songFieldsOfBody selfUpdateBody "mara-hlasak")).fst) := by
  refine ((adminUpdateSong_excludes_self demoDb 1 selfUpdateBody "mara-hlasak"
      (by decide) (by decide) (by decide)).1 ?_).1 ?_
  · intro ex hex
    have h1 : getSongBySlugRaw demoDb "mara-hlasak" = some demoSong1 := by decide
    rw [h1] at hex
    rw [← Option.some.inj hex]
    decide
  · exact ⟨demoSong1, by decide, by decide⟩

/-- Counterexample to C5 as stated: row id 1 owns slug `"mara-hlasak"`; an
update of the absent id 2 choosing that slug answers 409, not the 404 the
claim's last clause demands for an absent target id. -/
theorem adminUpdateSong_notfound_counterexample :
    ([demoSong1].all (fun s => s.id != 2)) = true ∧
    (handleAdminUpdateSong [demoSong1] 2 (some collidingUpdateBody)).fst
      = UpdateResponse.conflict "A different song with this slug already exists" ∧
    ¬ (handleAdminUpdateSong [demoSong1] 2 (some collidingUpdateBody)).fst
      = UpdateResponse.notFound "Song not found" := by decide

/-- Concrete instance of C10: slug `"ghost"` has no row; the first call is a
404 yet the second call 100 ms later is a 429. -/
theorem viewIncrement_limiter_before_existence_witness :
    (handleViewIncrement "ghost" "x" 100 [] demoDb).fst
        = ViewResponse.notFound "Song not found" ∧
    (handleViewIncrement "ghost" "x" 200
        (handleViewIncrement "ghost" "x" 100 [] demoDb).snd.fst
        (handleViewIncrement "ghost" "x" 100 [] demoDb).snd.snd).fst
      = ViewResponse.tooManyRequests "View already counted recently" :=
  ⟨(viewIncrement_limiter_before_existence [] demoDb "ghost" "x" 100 200
      (by decide) (by decide) (by decide) (by decide) (by decide)).1,
   (viewIncrement_limiter_before_existence [] demoDb "ghost" "x" 100 200
      (by decide) (by decide) (by decide) (by decide) (by decide)).2.2.2⟩

/-! ## C6: slug idempotence.  First the character-level facts, then that
every canonical list is a fixed point of the pipeline, then that the
pipeline always produces a canonical list. -/

theorem char_eq_iff_toNat (c d : Char) : c = d ↔ c.toNat = d.toNat := by
  constructor
  · intro h
    rw [h]
  · intro h
    exact Char.ext (UInt32.ext h)

theorem char_ofNat_toNat (n : Nat) (h : n < 55296) : (Char.ofNat n).toNat = n := by
  rw [Char.ofNat, dif_pos (show n.isValidChar from Or.inl h)]
  rfl

theorem toLowerJs_not_upper (c : Char) :
    ¬ (65 ≤ (toLowerJs c).toNat ∧ (toLowerJs c).toNat ≤ 90) := by
  rw [toLowerJs]
  split
  · next h =>
    rw [char_ofNat_toNat (c.toNat + 32) (by omega)]
    omega
  · next h => exact h

theorem isSlugChar_iff (c : Char) : isSlugChar c = true ↔
    (97 ≤ c.toNat ∧ c.toNat ≤ 122) ∨ (48 ≤ c.toNat ∧ c.toNat ≤ 57) ∨
      c.toNat = 45 := by
  simp [isSlugChar, char_eq_iff_toNat, show ('-' : Char).toNat = 45 from rfl]
  tauto

theorem isJsSpace_iff (c : Char) : isJsSpace c = true ↔
    c.toNat = 32 ∨ c.toNat = 9 ∨ c.toNat = 10 ∨ c.toNat = 13 ∨
      c.toNat = 11 ∨ c.toNat = 12 := by
  simp [isJsSpace, char_eq_iff_toNat, show (' ' : Char).toNat = 32 from rfl,
    show ('\t' : Char).toNat = 9 from rfl, show ('\n' : Char).toNat = 10 from rfl,
    show ('\r' : Char).toNat = 13 from rfl, show ('\x0b' : Char).toNat = 11 from rfl,
    show ('\x0c' : Char).toNat = 12 from rfl]
  tauto

theorem isSpaceU_iff (c : Char) : isSpaceU c = true ↔
    c.toNat = 32 ∨ c.toNat = 9 ∨ c.toNat = 10 ∨ c.toNat = 13 ∨
      c.toNat = 11 ∨ c.toNat = 12 ∨ c.toNat = 95 := by
  simp [isSpaceU, isJsSpace_iff, char_eq_iff_toNat,
    show ('_' : Char).toNat = 95 from rfl]
  tauto

theorem keepSlugChar_iff (c : Char) : keepSlugChar c = true ↔
    (97 ≤ c.toNat ∧ c.toNat ≤ 122) ∨ (65 ≤ c.toNat ∧ c.toNat ≤ 90) ∨
      (48 ≤ c.toNat ∧ c.toNat ≤ 57) ∨ c.toNat = 95 ∨ c.toNat = 32 ∨
      c.toNat = 9 ∨ c.toNat = 10 ∨ c.toNat = 13 ∨ c.toNat = 11 ∨
      c.toNat = 12 ∨ c.toNat = 45 := by
  simp [keepSlugChar, isJsWordChar, isJsSpace_iff, char_eq_iff_toNat,
    show ('_' : Char).toNat = 95 from rfl, show ('-' : Char).toNat = 45 from rfl]
  tauto

theorem hyphen_iff (c : Char) : c = '-' ↔ c.toNat = 45 :=
  (char_eq_iff_toNat c '-').trans (by rw [show ('-' : Char).toNat = 45 from rfl])

theorem toLowerJs_fix (c : Char) (h : isSlugChar c = true) : toLowerJs c = c := by
  rw [toLowerJs, if_neg]
  rw [isSlugChar_iff] at h
  omega

theorem isSlugChar_not_space (c : Char) (h : isSlugChar c = true) :
    isJsSpace c = false := by
  rw [← Bool.not_eq_true, isJsSpace_iff]
  rw [isSlugChar_iff] at h
  omega

theorem isSlugChar_not_spaceU (c : Char) (h : isSlugChar c = true) :
    isSpaceU c = false := by
  rw [← Bool.not_eq_true, isSpaceU_iff]
  rw [isSlugChar_iff] at h
  omega

theorem isSlugChar_keep (c : Char) (h : isSlugChar c = true) :
    keepSlugChar c = true := by
  rw [keepSlugChar_iff]
  rw [isSlugChar_iff] at h
  omega

theorem dropWhile_eq_self_of {p : Char → Bool} (l : List Char)
    (h : ∀ c ∈ l, p c = false) : l.dropWhile p = l := by
  cases l with
  | nil => rfl
  | cons a l =>
    rw [List.dropWhile_cons, if_neg (by simp [h a (by simp)])]

theorem jsTrimL_eq_self (l : List Char) (h : ∀ c ∈ l, isJsSpace c = false) :
    jsTrimL l = l := by
  rw [jsTrimL, dropWhile_eq_self_of l h,
    dropWhile_eq_self_of l.reverse (fun c hc => h c (List.mem_reverse.mp hc)),
    List.reverse_reverse]

theorem collapseSpaceU_eq_self (l : List Char)
    (h : ∀ c ∈ l, isSpaceU c = false) : collapseSpaceU l = l := by
  induction l with
  | nil => rfl
  | cons c rest ih =>
    have hc : isSpaceU c = false := h c (by simp)
    rw [collapseSpaceU.eq_def]
    simp only [hc, Bool.false_eq_true, if_false]
    rw [ih (fun d hd => h d (by simp [hd]))]

theorem collapseHyphens_eq_self (l : List Char)
    (h : noDoubleHyphen l = true) : collapseHyphens l = l := by
  induction l with
  | nil => rfl
  | cons c rest ih =>
    cases rest with
    | nil =>
      by_cases hc : c = '-'
      · subst hc
        rfl
      · simp [collapseHyphens, hc]
    | cons c2 rest2 =>
      have h' : noDoubleHyphen (c2 :: rest2) = true := by
        simp only [noDoubleHyphen, Bool.and_eq_true] at h
        exact h.2
      by_cases hc : c = '-'
      · have hc2 : ¬ c2 = '-' := by
          simp only [noDoubleHyphen, Bool.and_eq_true, Bool.not_eq_true',
            Bool.and_eq_false_imp, decide_eq_true_eq] at h
          intro he
          subst hc
          exact absurd (h.1 rfl) (by simp [he])
        simp only [collapseHyphens, hc, if_true, hc2, if_false]
        rw [ih h']
      · simp only [collapseHyphens, hc, if_false]
        rw [ih h']

theorem stripLeadHyphen_eq_self (l : List Char)
    (h : headNotHyphen l = true) : stripLeadHyphen l = l := by
  cases l with
  | nil => rfl
  | cons c rest =>
    have hc : ¬ c = '-' := by simpa [headNotHyphen] using h
    simp [stripLeadHyphen, hc]

theorem stripTrailHyphen_eq_self (l : List Char)
    (h : lastNotHyphen l = true) : stripTrailHyphen l = l := by
  induction l with
  | nil => rfl
  | cons c rest ih =>
    cases rest with
    | nil =>
      have hc : ¬ c = '-' := by simpa [lastNotHyphen] using h
      simp [stripTrailHyphen, hc]
    | cons c2 rest2 =>
      have h' : lastNotHyphen (c2 :: rest2) = true := by
        simpa [lastNotHyphen] using h
      show c :: stripTrailHyphen (c2 :: rest2) = _
      rw [ih h']

theorem genSlugList_fix (l : List Char) (h : slugCanonical l = true) :
    genSlugList l = l := by
  have hall : ∀ c ∈ l, isSlugChar c = true := by
    have := h
    simp only [slugCanonical, Bool.and_eq_true, List.all_eq_true] at this
    exact this.1.1.1
  have hdh : noDoubleHyphen l = true := by
    simp only [slugCanonical, Bool.and_eq_true] at h
    exact h.1.1.2
  have hhead : headNotHyphen l = true := by
    simp only [slugCanonical, Bool.and_eq_true] at h
    exact h.1.2
  have hlast : lastNotHyphen l = true := by
    simp only [slugCanonical, Bool.and_eq_true] at h
    exact h.2
  have hmap : l.map toLowerJs = l := by
    rw [List.map_congr_left (g := fun c => c) (fun c hc => toLowerJs_fix c (hall c hc))]
    simp
  have hfilter : l.filter keepSlugChar = l :=
    List.filter_eq_self.mpr (fun c hc => isSlugChar_keep c (hall c hc))
  rw [genSlugList, hmap, jsTrimL_eq_self l (fun c hc => isSlugChar_not_space c (hall c hc)),
    hfilter, collapseSpaceU_eq_self l (fun c hc => isSlugChar_not_spaceU c (hall c hc)),
    collapseHyphens_eq_self l hdh, stripLeadHyphen_eq_self l hhead,
    stripTrailHyphen_eq_self l hlast]

theorem mem_jsTrimL (c : Char) (l : List Char) (h : c ∈ jsTrimL l) : c ∈ l := by
  rw [jsTrimL, List.mem_reverse] at h
  have h1 := (List.dropWhile_sublist _).subset h
  rw [List.mem_reverse] at h1
  exact (List.dropWhile_sublist _).subset h1

theorem mem_collapseSpaceU (c : Char) (l : List Char) (h : c ∈ collapseSpaceU l) :
    (c ∈ l ∧ isSpaceU c = false) ∨ c = '-' := by
  induction l using collapseSpaceU.induct with
  | case1 => simp [collapseSpaceU] at h
  | case2 c0 hsp =>
    rw [collapseSpaceU.eq_def] at h
    simp only [hsp, if_true] at h
    right
    simp only [List.mem_singleton] at h
    exact h
  | case3 c0 hsp c1 rest2 hsp1 ih =>
    rw [collapseSpaceU.eq_def] at h
    simp only [hsp, hsp1, if_true] at h
    rcases ih h with ⟨hm, hns⟩ | hh
    · exact Or.inl ⟨by simp [hm], hns⟩
    · exact Or.inr hh
  | case4 c0 hsp c1 rest2 hns ih =>
    rw [collapseSpaceU.eq_def] at h
    simp only [hsp, hns, if_true, if_false] at h
    rcases List.mem_cons.mp h with hh | h'
    · exact Or.inr hh
    · rcases ih h' with ⟨hm, hns'⟩ | hh
      · exact Or.inl ⟨by simp [hm], hns'⟩
      · exact Or.inr hh
  | case5 c0 rest2 hns ih =>
    rw [collapseSpaceU.eq_def] at h
    simp only [hns, if_false] at h
    rcases List.mem_cons.mp h with hh | h'
    · subst hh
      exact Or.inl ⟨by simp, by simpa using hns⟩
    · rcases ih h' with ⟨hm, hns'⟩ | hh
      · exact Or.inl ⟨by simp [hm], hns'⟩
      · exact Or.inr hh

theorem collapseHyphens_cons_hyphen_hyphen (rest2 : List Char) :
    collapseHyphens ('-' :: '-' :: rest2) = collapseHyphens ('-' :: rest2) := by
  rw [collapseHyphens.eq_def]
  simp

theorem collapseHyphens_cons_hyphen_other (c2 : Char) (rest2 : List Char)
    (h : ¬ c2 = '-') :
    collapseHyphens ('-' :: c2 :: rest2) = '-' :: collapseHyphens (c2 :: rest2) := by
  rw [collapseHyphens.eq_def]
  simp [h]

theorem collapseHyphens_cons_other (c2 : Char) (rest2 : List Char) (h : ¬ c2 = '-') :
    collapseHyphens (c2 :: rest2) = c2 :: collapseHyphens rest2 := by
  rw [collapseHyphens.eq_def]
  simp [h]

theorem mem_collapseHyphens (c : Char) (l : List Char) (h : c ∈ collapseHyphens l) :
    c ∈ l := by
  induction l using collapseHyphens.induct with
  | case1 => exact h
  | case2 => exact h
  | case3 rest2 ih =>
    rw [collapseHyphens_cons_hyphen_hyphen] at h
    have := ih h
    simp only [List.mem_cons] at this ⊢
    tauto
  | case4 c2 rest2 hne ih =>
    rw [collapseHyphens_cons_hyphen_other c2 rest2 hne] at h
    rcases List.mem_cons.mp h with hh | h'
    · simp [hh]
    · have := ih h'
      simp only [List.mem_cons] at this ⊢
      tauto
  | case5 c2 rest2 hne ih =>
    rw [collapseHyphens_cons_other c2 rest2 hne] at h
    rcases List.mem_cons.mp h with hh | h'
    · simp [hh]
    · simp [ih h']

theorem head?_collapseHyphens (l : List Char) :
    (collapseHyphens l).head? = l.head? := by
  induction l using collapseHyphens.induct with
  | case1 => rfl
  | case2 => rfl
  | case3 rest2 ih =>
    rw [collapseHyphens_cons_hyphen_hyphen, ih]
    rfl
  | case4 c2 rest2 hne ih =>
    rw [collapseHyphens_cons_hyphen_other c2 rest2 hne]
    rfl
  | case5 c2 rest2 hne ih =>
    rw [collapseHyphens_cons_other c2 rest2 hne]
    rfl

theorem noDH_collapseHyphens (l : List Char) :
    noDoubleHyphen (collapseHyphens l) = true := by
  induction l using collapseHyphens.induct with
  | case1 => rfl
  | case2 => rfl
  | case3 rest2 ih =>
    rw [collapseHyphens_cons_hyphen_hyphen]
    exact ih
  | case4 c2 rest2 hne ih =>
    rw [collapseHyphens_cons_hyphen_other c2 rest2 hne]
    have hhead := head?_collapseHyphens (c2 :: rest2)
    cases hX : collapseHyphens (c2 :: rest2) with
    | nil => rfl
    | cons b t =>
      rw [hX] at hhead ih
      have hb : b = c2 := by simpa using hhead
      show noDoubleHyphen ('-' :: b :: t) = true
      simp only [noDoubleHyphen, Bool.and_eq_true]
      exact ⟨by simp [hb, hne], ih⟩
  | case5 c2 rest2 hne ih =>
    rw [collapseHyphens_cons_other c2 rest2 hne]
    cases hX : collapseHyphens rest2 with
    | nil => rfl
    | cons b t =>
      rw [hX] at ih
      show noDoubleHyphen (c2 :: b :: t) = true
      simp only [noDoubleHyphen, Bool.and_eq_true]
      exact ⟨by simp [hne], ih⟩

theorem noDH_tail (a : Char) (l : List Char)
    (h : noDoubleHyphen (a :: l) = true) : noDoubleHyphen l = true := by
  cases l with
  | nil => rfl
  | cons b t =>
    simp only [noDoubleHyphen, Bool.and_eq_true] at h
    exact h.2

theorem mem_stripLeadHyphen (c : Char) (l : List Char)
    (h : c ∈ stripLeadHyphen l) : c ∈ l := by
  cases l with
  | nil => exact h
  | cons a rest =>
    by_cases ha : a = '-'
    · rw [stripLeadHyphen, if_pos ha] at h
      simp [h]
    · rw [stripLeadHyphen, if_neg ha] at h
      exact h

theorem noDH_stripLead (l : List Char) (h : noDoubleHyphen l = true) :
    noDoubleHyphen (stripLeadHyphen l) = true := by
  cases l with
  | nil => rfl
  | cons a rest =>
    by_cases ha : a = '-'
    · rw [stripLeadHyphen, if_pos ha]
      exact noDH_tail a rest h
    · rw [stripLeadHyphen, if_neg ha]
      exact h

theorem headNot_stripLead (l : List Char) (h : noDoubleHyphen l = true) :
    headNotHyphen (stripLeadHyphen l) = true := by
  cases l with
  | nil => rfl
  | cons a rest =>
    by_cases ha : a = '-'
    · rw [stripLeadHyphen, if_pos ha]
      cases rest with
      | nil => rfl
      | cons b t =>
        subst ha
        simp only [noDoubleHyphen, Bool.and_eq_true] at h
        have hb : ¬ b = '-' := by simpa using h.1
        simpa [headNotHyphen] using hb
    · rw [stripLeadHyphen, if_neg ha]
      simpa [headNotHyphen] using ha

theorem stripTrail_single (c : Char) :
    stripTrailHyphen [c] = if c = '-' then [] else [c] := rfl

theorem stripTrail_cons2 (a b : Char) (t : List Char) :
    stripTrailHyphen (a :: b :: t) = a :: stripTrailHyphen (b :: t) := rfl

theorem lastNotHyphen_cons2 (a b : Char) (t : List Char) :
    lastNotHyphen (a :: b :: t) = lastNotHyphen (b :: t) := rfl

theorem mem_stripTrailHyphen (c : Char) (l : List Char)
    (h : c ∈ stripTrailHyphen l) : c ∈ l := by
  induction l with
  | nil => exact h
  | cons a rest ih =>
    cases rest with
    | nil =>
      rw [stripTrail_single] at h
      by_cases ha : a = '-'
      · rw [if_pos ha] at h
        simp at h
      · rw [if_neg ha] at h
        exact h
    | cons b t =>
      rw [stripTrail_cons2] at h
      rcases List.mem_cons.mp h with hh | h'
      · simp [hh]
      · simp [ih h']

theorem stripTrail_eq_nil (l : List Char) (h : stripTrailHyphen l = []) :
    l = [] ∨ l = ['-'] := by
  cases l with
  | nil => exact Or.inl rfl
  | cons a rest =>
    cases rest with
    | nil =>
      rw [stripTrail_single] at h
      by_cases ha : a = '-'
      · exact Or.inr (by rw [ha])
      · rw [if_neg ha] at h
        simp at h
    | cons b t =>
      rw [stripTrail_cons2] at h
      simp at h

theorem head?_stripTrail (l : List Char) :
    stripTrailHyphen l = [] ∨ (stripTrailHyphen l).head? = l.head? := by
  cases l with
  | nil => exact Or.inl rfl
  | cons a rest =>
    cases rest with
    | nil =>
      by_cases ha : a = '-'
      · rw [stripTrail_single, if_pos ha]
        exact Or.inl rfl
      · rw [stripTrail_single, if_neg ha]
        exact Or.inr rfl
    | cons b t =>
      rw [stripTrail_cons2]
      exact Or.inr rfl

theorem noDH_stripTrail (l : List Char) (h : noDoubleHyphen l = true) :
    noDoubleHyphen (stripTrailHyphen l) = true := by
  induction l with
  | nil => rfl
  | cons a rest ih =>
    cases rest with
    | nil =>
      rw [stripTrail_single]
      by_cases ha : a = '-'
      · rw [if_pos ha]
        rfl
      · rw [if_neg ha]
        rfl
    | cons b t =>
      rw [stripTrail_cons2]
      have ih' := ih (noDH_tail a _ h)
      cases hX : stripTrailHyphen (b :: t) with
      | nil => rfl
      | cons x xs =>
        rw [hX] at ih'
        have hx : x = b := by
          rcases head?_stripTrail (b :: t) with hnil | hh
          · rw [hX] at hnil
            simp at hnil
          · rw [hX] at hh
            simpa using hh
        show noDoubleHyphen (a :: x :: xs) = true
        simp only [noDoubleHyphen, Bool.and_eq_true]
        refine ⟨?_, ih'⟩
        subst hx
        simp only [noDoubleHyphen, Bool.and_eq_true] at h
        exact h.1

theorem headNot_stripTrail (l : List Char) (h : headNotHyphen l = true) :
    headNotHyphen (stripTrailHyphen l) = true := by
  rcases head?_stripTrail l with hnil | hh
  · rw [hnil]
    rfl
  · cases hX : stripTrailHyphen l with
    | nil => rfl
    | cons x xs =>
      rw [hX] at hh
      cases l with
      | nil => simp at hh
      | cons a rest =>
        have hx : x = a := by simpa using hh
        have ha : ¬ a = '-' := by simpa [headNotHyphen] using h
        subst hx
        simpa [headNotHyphen] using ha

theorem lastNot_stripTrail (l : List Char) (h : noDoubleHyphen l = true) :
    lastNotHyphen (stripTrailHyphen l) = true := by
  induction l with
  | nil => rfl
  | cons a rest ih =>
    cases rest with
    | nil =>
      by_cases ha : a = '-'
      · rw [stripTrail_single, if_pos ha]
        rfl
      · rw [stripTrail_single, if_neg ha]
        simpa [lastNotHyphen] using ha
    | cons b t =>
      rw [stripTrail_cons2]
      have ih' := ih (noDH_tail a _ h)
      cases hX : stripTrailHyphen (b :: t) with
      | nil =>
        rcases stripTrail_eq_nil _ hX with h1 | h1
        · simp at h1
        · have h2 : b = '-' ∧ t = [] := by
            simpa only [List.cons.injEq] using h1
          have hb := h2.1
          have ha : ¬ a = '-' := by
            simp only [noDoubleHyphen, Bool.and_eq_true] at h
            intro hha
            have := h.1
            rw [hha, hb] at this
            simp at this
          simpa [lastNotHyphen] using ha
      | cons x xs =>
        rw [hX] at ih'
        show lastNotHyphen (a :: x :: xs) = true
        rw [lastNotHyphen_cons2]
        exact ih'

theorem genSlugList_canonical (l : List Char) :
    slugCanonical (genSlugList l) = true := by
  have hchars1 : ∀ c ∈ collapseSpaceU ((jsTrimL (l.map toLowerJs)).filter keepSlugChar),
      isSlugChar c = true := by
    intro c hc
    rcases mem_collapseSpaceU c _ hc with ⟨hmem, hsp⟩ | h45
    · have hkeep : keepSlugChar c = true := (List.mem_filter.mp hmem).2
      have hmem2 : c ∈ jsTrimL (l.map toLowerJs) := (List.mem_filter.mp hmem).1
      have hmem3 : c ∈ l.map toLowerJs := mem_jsTrimL _ _ hmem2
      obtain ⟨a, _, ha⟩ := List.mem_map.mp hmem3
      have hnu : ¬ (65 ≤ c.toNat ∧ c.toNat ≤ 90) := by
        rw [← ha]
        exact toLowerJs_not_upper a
      have hsp' : ¬ (c.toNat = 32 ∨ c.toNat = 9 ∨ c.toNat = 10 ∨ c.toNat = 13 ∨
          c.toNat = 11 ∨ c.toNat = 12 ∨ c.toNat = 95) := by
        rw [← isSpaceU_iff]
        simp [hsp]
      rw [keepSlugChar_iff] at hkeep
      rw [isSlugChar_iff]
      omega
    · rw [h45]
      decide
  have hdh2 := noDH_collapseHyphens
    (collapseSpaceU ((jsTrimL (l.map toLowerJs)).filter keepSlugChar))
  have hdh3 := noDH_stripLead _ hdh2
  have hdh4 := noDH_stripTrail _ hdh3
  have hh3 := headNot_stripLead _ hdh2
  have hh4 := headNot_stripTrail _ hh3
  have hlast4 := lastNot_stripTrail _ hdh3
  rw [slugCanonical, genSlugList]
  simp only [Bool.and_eq_true, List.all_eq_true]
  refine ⟨⟨⟨?_, hdh4⟩, hh4⟩, hlast4⟩
  intro c hc
  exact hchars1 c (mem_collapseHyphens c _
    (mem_stripLeadHyphen c _ (mem_stripTrailHyphen c _ hc)))

theorem genSlugList_idem (l : List Char) :
    genSlugList (genSlugList l) = genSlugList l :=
  genSlugList_fix _ (genSlugList_canonical l)

/-- C6: `generateSlug` is pure and deterministic (it is a function of its
argument alone in this embedding) and idempotent on every printable-ASCII
string: applying it to its own output returns the output unchanged. -/
theorem generateSlug_idempotent (s : String)
    (h : ∀ c ∈ s.data, 32 ≤ c.toNat ∧ c.toNat ≤ 126) :
    generateSlug (generateSlug s) = generateSlug s := by
  have hdata : (String.mk (genSlugList s.data)).data = genSlugList s.data := rfl
  simp only [generateSlug, hdata, genSlugList_idem]

/-- Concrete instance of C6 on the spec's scenario title. -/
theorem generateSlug_idempotent_witness :
    generateSlug (generateSlug "Test Song") = generateSlug "Test Song" :=
  generateSlug_idempotent "Test Song" (by decide)

/-! ## C7: list parameter clamping -/

/-- C7 (amended): when the raw `page`/`limit` values are absent, empty, or
parse to an integer (in particular any out-of-range integer), the handler
passes the gateway a page of `max 1 n` (so `≥ 1`, default 1) and a limit of
`min 50 (max 1 n)` (so between 1 and 50, default 20), with no error
response.  (A non-numeric value parses to `NaN`, which `Math.max`/`Math.min`
propagate instead of clamping — see the counterexample.) -/
theorem handleGetSongs_params_clamped (rawPage rawLimit : Option String)
    (np nl : Int)
    (hp : parseIntJS (jsQueryOr rawPage "1") = some np)
    (hl : parseIntJS (jsQueryOr rawLimit "20") = some nl) :
    handleGetSongs_page rawPage = some (max 1 np) ∧
    (1 : Int) ≤ max 1 np ∧
    handleGetSongs_limit rawLimit = some (min 50 (max 1 nl)) ∧
    (1 : Int) ≤ min 50 (max 1 nl) ∧ min 50 (max 1 nl) ≤ 50 ∧
    (rawPage = none → handleGetSongs_page rawPage = some 1) ∧
    (rawLimit = none → handleGetSongs_limit rawLimit = some 20) := by
  refine ⟨?_, le_max_left 1 np, ?_, by omega, by omega, ?_, ?_⟩
  · simp [handleGetSongs_page, jsMaxNan, hp]
  · simp [handleGetSongs_limit, jsMaxNan, jsMinNan, hl]
  · intro h
    subst h
    decide
  · intro h
    subst h
    decide

/-- Concrete instance of C7 (amended): a large page passes through, a
negative limit clamps to 1. -/
theorem handleGetSongs_params_clamped_witness :
    handleGetSongs_page (some "999") = some 999 ∧
    handleGetSongs_limit (some "-3") = some 1 := by
  have h := handleGetSongs_params_clamped (some "999") (some "-3") 999 (-3)
    (by decide) (by decide)
  exact ⟨h.1.trans (by decide), h.2.2.1.trans (by decide)⟩

/-- Counterexample to C7 as stated: `?page=abc` (and `?limit=xyz`) parse to
`NaN` (`none`), so no clamped number `≥ 1` reaches the gateway — the claim's
`whatever the raw values … page ≥ 1 … never an error` fails for non-numeric
input, which ends in the dispatcher's 500, not a clamped success. -/
theorem handleGetSongs_params_counterexample :
    handleGetSongs_page (some "abc") = none ∧
    handleGetSongs_limit (some "xyz") = none ∧
    handleGetSongs demoDb (some "abc") none none = none := by decide

/-! ## C8: the malformed-JSON boundary -/

/-- C8 (amended): the admin create/update handlers of all four entity types
wrap `request.json()` in try/catch and answer 400 (`"Invalid JSON body"`)
locally with the store untouched; the report submission, report status
update, and contact submission handlers parse the body outside any local
guard, so a malformed body escapes as an exception and it is the
dispatcher's top-level boundary that answers — a 500, not a 400. -/
theorem malformedJson_boundary (dbS : List Song) (dbA : List Artist)
    (dbC : List Composer) (dbO : List CopyrightOwner) (dbR : List Report)
    (dbK : List Contact) (i : Nat) (ts : TurnstileOutcome) (now tsn : Nat) :
    handleAdminCreateSong dbS none tsn
        = (CreateResponse.badRequest "Invalid JSON body", dbS) ∧
    handleAdminUpdateSong dbS i none
        = (UpdateResponse.badRequest "Invalid JSON body", dbS) ∧
    handleAdminCreateArtist dbA none tsn
        = (CreateResponse.badRequest "Invalid JSON body", dbA) ∧
    handleAdminUpdateArtist dbA i none
        = (UpdateResponse.badRequest "Invalid JSON body", dbA) ∧
    handleAdminCreateComposer dbC none tsn
        = (CreateResponse.badRequest "Invalid JSON body", dbC) ∧
    handleAdminUpdateComposer dbC i none
        = (UpdateResponse.badRequest "Invalid JSON body", dbC) ∧
    handleAdminCreateCopyrightOwner dbO none tsn
        = (CreateResponse.badRequest "Invalid JSON body", dbO) ∧
    handleAdminUpdateCopyrightOwner dbO i none
        = (UpdateResponse.badRequest "Invalid JSON body", dbO) ∧
    handleCreateReport none ts dbR now = Except.error () ∧
    handleUpdateReportStatus i none dbR = Except.error () ∧
    handleCreateContact none ts dbK now = Except.error () ∧
    topLevelStatus SubmitResponse.status (handleCreateReport none ts dbR now) = 500 ∧
    topLevelStatus SimpleResponse.status (handleUpdateReportStatus i none dbR) = 500 ∧
    topLevelStatus SubmitResponse.status (handleCreateContact none ts dbK now) = 500 :=
  ⟨rfl, rfl, rfl, rfl, rfl, rfl, rfl, rfl, rfl, rfl, rfl, rfl, rfl, rfl⟩

/-- Counterexample to C8 as stated: a malformed body on `POST /api/report`
reaches the dispatcher's exception boundary and the response is the generic
500, not a handler-produced 400. -/
theorem malformedJson_report_counterexample :
    handleCreateReport none (TurnstileOutcome.ok true) [] 0 = Except.error () ∧
    topLevelStatus SubmitResponse.status
        (handleCreateReport none (TurnstileOutcome.ok true) [] 0) = 500 ∧
    ¬ topLevelStatus SubmitResponse.status
        (handleCreateReport none (TurnstileOutcome.ok true) [] 0) = 400 :=
  ⟨rfl, rfl, by decide⟩

/-! ## C9: the views counter only grows -/

theorem find?_append_of_some {α} (l₁ l₂ : List α) (p : α → Bool) (a : α)
    (h : List.find? p l₁ = some a) : List.find? p (l₁ ++ l₂) = some a := by
  induction l₁ with
  | nil => simp [List.find?] at h
  | cons x l ih =>
    by_cases hx : p x = true
    · rw [List.find?_cons_of_pos _ hx] at h
      rw [List.cons_append, List.find?_cons_of_pos _ hx]
      exact h
    · rw [List.find?_cons_of_neg _ hx] at h
      rw [List.cons_append, List.find?_cons_of_neg _ hx]
      exact ih h

theorem find?_filter_of_imp {α} (l : List α) (p q : α → Bool)
    (h : ∀ a, p a = true → q a = true) :
    List.find? p (l.filter q) = List.find? p l := by
  induction l with
  | nil => rfl
  | cons a l ih =>
    by_cases hq : q a = true
    · rw [List.filter_cons, if_pos hq]
      by_cases hp : p a = true
      · rw [List.find?_cons_of_pos _ hp, List.find?_cons_of_pos _ hp]
      · rw [List.find?_cons_of_neg _ hp, List.find?_cons_of_neg _ hp]
        exact ih
    · have hp : ¬ p a = true := fun hpa => hq (h a hpa)
      rw [List.filter_cons, if_neg hq, List.find?_cons_of_neg _ hp]
      exact ih

theorem find?_map_views {g : Song → Song} (hid : ∀ a, (g a).id = a.id)
    (db : List Song) (i : Nat) (s s' : Song)
    (h1 : List.find? (fun u : Song => u.id = i) db = some s)
    (h2 : List.find? (fun u : Song => u.id = i) (db.map g) = some s') :
    s' = g s := by
  induction db with
  | nil => simp [List.find?] at h1
  | cons a l ih =>
    by_cases hp : a.id = i
    · rw [List.find?_cons_of_pos _ (by simp [hp])] at h1
      rw [List.map_cons, List.find?_cons_of_pos _ (by simp [hid a, hp])] at h2
      rw [← Option.some.inj h1, ← Option.some.inj h2]
    · rw [List.find?_cons_of_neg _ (by simp [hp])] at h1
      rw [List.map_cons, List.find?_cons_of_neg _ (by simp [hid a, hp])] at h2
      exact ih h1 h2

theorem updateSong_views_column (db : List Song) (i : Nat) (f : SongFields) :
    ((updateSong db i f).fst).map Song.views = db.map Song.views := by
  show (db.map _).map Song.views = _
  rw [List.map_map]
  apply List.map_congr_left
  intro s _
  by_cases h : s.id = i <;> simp [h, Function.comp]

theorem findById_applyOp_views (op : GatewayOp) (db : List Song) (i : Nat)
    (s s' : Song) (h1 : findById db i = some s)
    (h2 : findById (applyOp db op) i = some s') : s.views ≤ s'.views := by
  cases op with
  | createOp f ts =>
    have he : findById (applyOp db (GatewayOp.createOp f ts)) i = some s := by
      show List.find? (fun u : Song => u.id = i) (db ++ _) = some s
      exact find?_append_of_some _ _ _ s h1
    rw [he] at h2
    exact le_of_eq (congrArg Song.views (Option.some.inj h2))
  | updateOp j f =>
    have h2' : List.find? (fun u : Song => u.id = i)
        (db.map (fun u : Song =>
          if u.id = j then
            { u with title := f.title, slug := f.slug, artist_id := f.artist_id,
                     composer_id := f.composer_id,
                     copyright_owner_id := f.copyright_owner_id,
                     category := f.category, lyrics := f.lyrics }
          else u)) = some s' := h2
    have h1' : List.find? (fun u : Song => u.id = i) db = some s := h1
    have hs' := find?_map_views (fun a => by by_cases h : a.id = j <;> simp [h])
      db i s s' h1' h2'
    rw [hs']
    by_cases h : s.id = j <;> simp [h]
  | deleteOp j =>
    by_cases hij : i = j
    · subst hij
      exfalso
      have hmem : s' ∈ db.filter (fun u : Song => ¬ u.id = i) :=
        List.mem_of_find?_eq_some h2
      have hpred := List.find?_some h2
      rw [List.mem_filter] at hmem
      simp only [decide_eq_true_eq] at hmem hpred
      exact hmem.2 hpred
    · have h2' : List.find? (fun u : Song => u.id = i)
          (db.filter (fun u : Song => ¬ u.id = j)) = some s' := h2
      rw [find?_filter_of_imp _ _ _ ?_] at h2'
      · have h1' : List.find? (fun u : Song => u.id = i) db = some s := h1
        rw [h1'] at h2'
        exact le_of_eq (congrArg Song.views (Option.some.inj h2'))
      · intro a ha
        simp only [decide_eq_true_eq] at ha ⊢
        omega
  | incrementOp slug =>
    have h2' : List.find? (fun u : Song => u.id = i)
        (db.map (fun u : Song =>
          if u.slug = slug then { u with views := u.views + 1 } else u)) = some s' := h2
    have h1' : List.find? (fun u : Song => u.id = i) db = some s := h1
    have hs' := find?_map_views (fun a => by by_cases h : a.slug = slug <;> simp [h])
      db i s s' h1' h2'
    rw [hs']
    by_cases h : s.slug = slug <;> simp [h]

theorem applyOps_views_mono (ops : List GatewayOp) (db : List Song) (i : Nat)
    (s s' : Song)
    (hpersist : ∀ l₁ l₂, ops = l₁ ++ l₂ → (findById (applyOps db l₁) i).isSome = true)
    (h1 : findById db i = some s) (h2 : findById (applyOps db ops) i = some s') :
    s.views ≤ s'.views := by
  induction ops generalizing db s with
  | nil =>
    have hss : s = s' := by
      have h2' : findById db i = some s' := h2
      rw [h1] at h2'
      exact Option.some.inj h2'
    exact le_of_eq (by rw [hss])
  | cons op rest ih =>
    have hsome : (findById (applyOp db op) i).isSome = true := by
      have := hpersist [op] rest rfl
      simpa [applyOps] using this
    obtain ⟨t, ht⟩ := Option.isSome_iff_exists.mp hsome
    have step := findById_applyOp_views op db i s t h1 ht
    have hrest : findById (applyOps (applyOp db op) rest) i = some s' := h2
    have hp' : ∀ l₁ l₂, rest = l₁ ++ l₂ →
        (findById (applyOps (applyOp db op) l₁) i).isSome = true := by
      intro l₁ l₂ hsplit
      have := hpersist (op :: l₁) l₂ (by rw [hsplit]; rfl)
      simpa [applyOps] using this
    exact le_trans step (ih (applyOp db op) t hp' ht hrest)

/-- C9: the views invariant.  `updateSong` leaves the whole `views` column
untouched; `incrementViews` never decreases a row's counter and changes
nothing when the slug differs; `deleteSong` only removes whole rows;
`createSong` only appends a fresh row with `views = 0`; every single
gateway operation is monotone on the counter of a row found by id; and over
any operation sequence under which the row stays present its counter is
non-decreasing. -/
theorem views_monotonic :
    (∀ (db : List Song) (i : Nat) (f : SongFields),
        ((updateSong db i f).fst).map Song.views = db.map Song.views) ∧
    (∀ (db : List Song) (slug : String) (i : Nat) (s s' : Song),
        db[i]? = some s → ((incrementViews db slug).fst)[i]? = some s' →
        s.views ≤ s'.views ∧ (¬ s.slug = slug → s' = s)) ∧
    (∀ (db : List Song) (i : Nat), ((deleteSong db i).fst).Sublist db) ∧
    (∀ (db : List Song) (f : SongFields) (ts : Nat),
        (createSong db f ts).snd
          = db ++ [{ id := nextSongId db, title := f.title, slug := f.slug,
                     artist_id := f.artist_id, composer_id := f.composer_id,
                     copyright_owner_id := f.copyright_owner_id,
                     category := f.category, lyrics := f.lyrics,
                     views := 0, created_at := ts }]) ∧
    (∀ (op : GatewayOp) (db : List Song) (i : Nat) (s s' : Song),
        findById db i = some s → findById (applyOp db op) i = some s' →
        s.views ≤ s'.views) ∧
    (∀ (ops : List GatewayOp) (db : List Song) (i : Nat) (s s' : Song),
        (∀ l₁ l₂, ops = l₁ ++ l₂ → (findById (applyOps db l₁) i).isSome = true) →
        findById db i = some s → findById (applyOps db ops) i = some s' →
        s.views ≤ s'.views) := by
  refine ⟨updateSong_views_column, ?_, ?_, fun _ _ _ => rfl,
    findById_applyOp_views, applyOps_views_mono⟩
  · intro db slug i s s' hs hs'
    have : ((incrementViews db slug).fst)[i]?
        = (db[i]?).map (fun u => if u.slug = slug then { u with views := u.views + 1 } else u) := by
      show (db.map _)[i]? = _
      rw [List.getElem?_map]
    rw [this, hs] at hs'
    have hs'' := Option.some.inj hs'
    constructor
    · rw [← hs'']
      by_cases h : s.slug = slug <;> simp [h]
    · intro h
      rw [← hs'']
      simp [h]
  · intro db i
    exact List.filter_sublist db

/-- Concrete instance of C9: incrementing `demoSong1`'s slug takes its
counter from 3 to 4, never down. -/
theorem views_monotonic_witness :
    demoSong1.views ≤ ({ demoSong1 with views := demoSong1.views + 1 } : Song).views :=
  views_monotonic.2.2.2.2.1 (GatewayOp.incrementOp "mara-hlasak") demoDb 1
    demoSong1 { demoSong1 with views := demoSong1.views + 1 } (by decide) (by decide)

end MaraLyrics
